import Mathlib

/-!
Verification development for the radio-transmission simulation
(`auxiliary_classes.py`, `global_system.py`, `local_system.py`).

Python floats are modelled as rationals (every float value is a rational
number, and the program only adds, subtracts, divides and compares them),
Python dicts as association lists in insertion order, and Python object
references by explicit ids where object identity is observable.

The recursive delivery routine `RadioTransmissionMediumSystem.add_signal`
mutates one single `Radiosignal` object in place and appends that very
object (not a copy) both to the per-bucket dedup lists
(`dict_getting_information`) and to the inbox lists
(`dict_frequency_signal_to_receive`).  The embedding therefore threads the
current value of that live object separately and records the buckets that
hold an alias of it (`AliasState`); when the call finishes, the aliases
resolve to the final value of the object (`resolveAlias`), which is exactly
the list contents an observer sees afterwards.
-/

-- Batteries marks these rational operations irreducible, which blocks
-- `decide` on concrete rational arithmetic; restore default reducibility.
attribute [local semireducible] Rat.add Rat.sub Rat.mul Rat.inv

deriving instance DecidableEq for Except

/-- Python `int(x)` on a float: truncation toward zero. -/
def pyInt (q : ℚ) : Int := Int.tdiv q.num (q.den : Int)

/-- Python `x or default` for an optional/float frequency argument:
`None` and `0` are falsy and are replaced by the default. -/
def pyOrFrequency (x : Option ℚ) (default : ℚ) : ℚ :=
  match x with
  | none => default
  | some v => if v = 0 then default else v

/-- Python `x != y` where `x` is a float and `y` an optional float:
comparison with `None` is always unequal. -/
def pyNeOpt (x : ℚ) (y : Option ℚ) : Bool :=
  match y with
  | none => true
  | some f => decide (x ≠ f)

/-- Lookup in a Python dict modelled as an association list. -/
def lookupD {α : Type} (l : List (Int × α)) (k : Int) : Option α :=
  match l with
  | [] => none
  | (k', v) :: t => if k' = k then some v else lookupD t k

/-- Python `d.setdefault(k, []).append(x)` on a dict of lists: append `x`
to the bucket of `k`, creating the bucket (at the end, as dict insertion
does) when it is absent. -/
def insertAppend {α : Type} (l : List (Int × List α)) (k : Int) (x : α) :
    List (Int × List α) :=
  match l with
  | [] => [(k, [x])]
  | (k', v) :: t => if k' = k then (k', v ++ [x]) :: t else (k', v) :: insertAppend t k x

/-- Mutation of the object stored at key `k` (a no-op if `k` is absent). -/
def updateD {α : Type} (l : List (Int × α)) (k : Int) (f : α → α) : List (Int × α) :=
  match l with
  | [] => []
  | (k', v) :: t => if k' = k then (k', f v) :: t else (k', v) :: updateD t k f

/-- MemoryBlock from `auxiliary_classes.py`. -/
structure MemoryBlock where
  memoryId : Int
  blockStart : Int
  blockEnd : Int
deriving DecidableEq, Repr

/-- Property `size = block_end - block_start`. -/
def MemoryBlock.size (m : MemoryBlock) : Int := m.blockEnd - m.blockStart

/-- Radiosignal from `auxiliary_classes.py`; `__eq__` compares all five
fields, which is what the derived decidable equality does. -/
structure Radiosignal where
  idTransmitter : Int
  idReceiver : Int
  memory : MemoryBlock
  frequency : ℚ
  idAntennaReceiver : Option Int := none
deriving DecidableEq, Repr

/-- ListenEtherTask from `auxiliary_classes.py`; `__eq__` compares all six
fields, which is what the derived decidable equality does. -/
structure ListenEtherTask where
  frequencyRecipiency : ℚ
  idAntennaReceiver : Option Int := none
  frequencyTransmissionRelay : Option ℚ := none
  idDestinationRelay : Option Int := none
  idAntennaDestinationRelay : Option Int := none
  saveRelayedSignalsLocallyRelay : Bool := false
deriving DecidableEq, Repr

/-- Properties of a global consumer (`RadioTransmissionMediumConsumerProperties`). -/
structure RadioTransmissionMediumConsumerProperties where
  frequency : ℚ
  idConsumer : Int
deriving DecidableEq, Repr

/-- State of one global consumer (`RadioTransmissionMediumConsumer`).
`dictFrequencySignalToReceive` and `dictGettingInformation` hold the
already-resolved values of past signals; aliases of the signal currently
being delivered live in `AliasState` until the delivery call returns. -/
structure RadioTransmissionMediumConsumer where
  properties : RadioTransmissionMediumConsumerProperties
  dictIdReceiverSignalsToSend : List (Int × List Radiosignal) := []
  dictFrequencySignalToReceive : List (Int × List Radiosignal) := []
  listenEtherTasks : List ListenEtherTask := []
  dictGettingInformation : List (Int × List Radiosignal) := []
deriving DecidableEq, Repr

/-- Method `RadioTransmissionMediumConsumer.clear_tasks`. -/
def RadioTransmissionMediumConsumer.clearTasks (c : RadioTransmissionMediumConsumer) :
    RadioTransmissionMediumConsumer :=
  { c with dictIdReceiverSignalsToSend := [], listenEtherTasks := [] }

/-- Method `RadioTransmissionMediumConsumer.send_signal`.  A falsy
(`None` or `0`) frequency is replaced by the consumer's own frequency;
a self-addressed signal is rejected with `False`. -/
def RadioTransmissionMediumConsumer.sendSignal (c : RadioTransmissionMediumConsumer)
    (idReceiver : Int) (memory : MemoryBlock) (frequency : Option ℚ)
    (idAntennaReceiver : Option Int := none) :
    Bool × RadioTransmissionMediumConsumer :=
  let f := pyOrFrequency frequency c.properties.frequency
  let idTransmitter := c.properties.idConsumer
  if idTransmitter = idReceiver then (false, c)
  else
    let signal : Radiosignal :=
      { idTransmitter := idTransmitter, idReceiver := idReceiver,
        memory := memory, frequency := f, idAntennaReceiver := idAntennaReceiver }
    (true, { c with dictIdReceiverSignalsToSend :=
        insertAppend c.dictIdReceiverSignalsToSend signal.idReceiver signal })

/-- Method `RadioTransmissionMediumConsumer.receive_signal`. -/
def RadioTransmissionMediumConsumer.receiveSignal (c : RadioTransmissionMediumConsumer)
    (frequency : Option ℚ := none) : List Radiosignal :=
  let f := pyOrFrequency frequency c.properties.frequency
  (lookupD c.dictFrequencySignalToReceive (pyInt f)).getD []

/-- Method `RadioTransmissionMediumConsumer.listen_ether`: append-if-absent
of a plain listen task, returning whether a new task was added. -/
def RadioTransmissionMediumConsumer.listenEther (c : RadioTransmissionMediumConsumer)
    (idAntennaReceiver : Int) (frequencyRecipiency : Option ℚ := none) :
    Bool × RadioTransmissionMediumConsumer :=
  let task : ListenEtherTask :=
    { frequencyRecipiency := pyOrFrequency frequencyRecipiency c.properties.frequency,
      idAntennaReceiver := some idAntennaReceiver }
  if task ∈ c.listenEtherTasks then (false, c)
  else (true, { c with listenEtherTasks := c.listenEtherTasks ++ [task] })

/-- Method `RadioTransmissionMediumConsumer.i_am_repeater`: rejects only a
self-addressed relay destination; otherwise it appends the relay task
unconditionally (there is no duplicate check) and returns `True`. -/
def RadioTransmissionMediumConsumer.iAmRepeater (c : RadioTransmissionMediumConsumer)
    (idDestinationRelay : Int) (idAntennaReceiver : Int)
    (idAntennaDestinationRelay : Option Int := none)
    (frequencyRecipiency : Option ℚ := none)
    (frequencyTransmissionRelay : Option ℚ := none)
    (saveRelayedSignalsLocallyRelay : Bool := false) :
    Bool × RadioTransmissionMediumConsumer :=
  if c.properties.idConsumer = idDestinationRelay then (false, c)
  else
    let task : ListenEtherTask :=
      { frequencyRecipiency := pyOrFrequency frequencyRecipiency c.properties.frequency,
        idAntennaReceiver := some idAntennaReceiver,
        frequencyTransmissionRelay :=
          some (pyOrFrequency frequencyTransmissionRelay c.properties.frequency),
        idDestinationRelay := some idDestinationRelay,
        idAntennaDestinationRelay := idAntennaDestinationRelay,
        saveRelayedSignalsLocallyRelay := saveRelayedSignalsLocallyRelay }
    (true, { c with listenEtherTasks := c.listenEtherTasks ++ [task] })

/-- State of the global medium (`RadioTransmissionMediumSystem`): the
consumer registry keyed by consumer id, and the matching accuracy, which
the constructor sets to `1e1`. -/
structure RadioTransmissionMediumSystem where
  consumers : List (Int × RadioTransmissionMediumConsumer)
  frequencyAccuracy : ℚ := 10
deriving DecidableEq, Repr

/-- Method `can_consumer_receive_signal_by_frequency`:
strict comparison `abs(signal_frequency - receiver_frequency) < accuracy`. -/
def RadioTransmissionMediumSystem.canConsumerReceiveSignalByFrequency
    (m : RadioTransmissionMediumSystem) (signalFrequency receiverFrequency : ℚ) : Bool :=
  decide (|signalFrequency - receiverFrequency| < m.frequencyAccuracy)

/-- Method `can_consumer_receive_signal_by_antenna`: plain equality of the
(optional) antenna id in the signal with the listener's antenna id, so a
signal without an antenna id never matches. -/
def canConsumerReceiveSignalByAntenna (signalIdAntenna : Option Int)
    (receiverIdAntenna : Int) : Bool :=
  signalIdAntenna == some receiverIdAntenna

/-- Buckets that hold an alias of the live signal object of the current
`add_signal` cascade: `visited` for dedup buckets `(consumer id, key)`,
`pending` for inbox buckets.  An alias in a dedup bucket makes every later
membership test of the live object in that bucket succeed (the object is
structurally equal to itself), which is what stops relay cycles. -/
structure AliasState where
  visited : List (Int × Int) := []
  pending : List (Int × Int) := []
deriving DecidableEq, Repr

/-- Already-resolved dedup bucket of consumer `cid` at key `key`. -/
def RadioTransmissionMediumSystem.dedupBucket (m : RadioTransmissionMediumSystem)
    (cid key : Int) : List Radiosignal :=
  match lookupD m.consumers cid with
  | none => []
  | some c => (lookupD c.dictGettingInformation key).getD []

/-- Loop `for listener in recipient.listen_ether_tasks` of `add_signal`.
`rec` is the recursive delivery call (the fueled `add_signal` one level of
fuel down); `cid` is the id the recipient was found under (the signal's
receiver id at entry).  The signal value threads through the loop because
a relay iteration mutates the one live object that later iterations keep
using. -/
def processListenTasks
    (rec : RadioTransmissionMediumSystem → AliasState → Radiosignal →
      Option (Except String (AliasState × Radiosignal)))
    (m : RadioTransmissionMediumSystem) (cid : Int) :
    List ListenEtherTask → AliasState → Radiosignal →
    Option (Except String (AliasState × Radiosignal))
  | [], al, signal => some (Except.ok (al, signal))
  | listener :: rest, al, signal =>
    match listener.idAntennaReceiver with
    | none => some (Except.error "Attribute id_antenna_receiver is None.")
    | some receiverAntenna =>
      if m.canConsumerReceiveSignalByFrequency signal.frequency listener.frequencyRecipiency
          && canConsumerReceiveSignalByAntenna signal.idAntennaReceiver receiverAntenna then
        let key := pyInt listener.frequencyRecipiency
        if (cid, key) ∈ al.visited ∨ signal ∈ m.dedupBucket cid key then
          processListenTasks rec m cid rest al signal
        else
          let al1 : AliasState := { al with visited := al.visited ++ [(cid, key)] }
          match listener.idDestinationRelay with
          | some destination =>
            let al2 : AliasState :=
              if listener.saveRelayedSignalsLocallyRelay then
                { al1 with pending := al1.pending ++ [(cid, key)] }
              else al1
            match listener.frequencyTransmissionRelay with
            | none => some (Except.error "Attribute frequency_transmission_relay is None.")
            | some relayFrequency =>
              let signal2 : Radiosignal :=
                { signal with
                  idReceiver := destination
                  frequency := relayFrequency
                  idAntennaReceiver := listener.idAntennaDestinationRelay }
              match rec m al2 signal2 with
              | none => none
              | some (Except.error e) => some (Except.error e)
              | some (Except.ok (al3, signal3)) =>
                processListenTasks rec m cid rest al3 signal3
          | none =>
            let al2 : AliasState := { al1 with pending := al1.pending ++ [(cid, key)] }
            processListenTasks rec m cid rest al2 signal
      else
        processListenTasks rec m cid rest al signal

/-- Fueled embedding of `RadioTransmissionMediumSystem.add_signal`.  One
unit of fuel is consumed per (recursive) entry of `add_signal`; the task
loop is `processListenTasks`.  `none` means the fuel ran out; a
`some (Except.error e)` is a raised Python exception.  The result carries
the alias bookkeeping and the final value of the mutated signal object. -/
def addSignalFuel : Nat → RadioTransmissionMediumSystem → AliasState → Radiosignal →
    Option (Except String (AliasState × Radiosignal))
  | 0, _, _, _ => none
  | Nat.succ n, m, al, signal =>
    match lookupD m.consumers signal.idReceiver with
    | none => some (Except.ok (al, signal))
    | some recipient =>
      processListenTasks (addSignalFuel n) m signal.idReceiver
        recipient.listenEtherTasks al signal

/-- Dedup-bucket candidates of the medium: all pairs of a registered
consumer id with the integer bucket of one of its listen tasks.  Every
bucket the delivery cascade can record an alias in is of this form. -/
def RadioTransmissionMediumSystem.candPairs (m : RadioTransmissionMediumSystem) :
    List (Int × Int) :=
  m.consumers.flatMap fun p =>
    p.2.listenEtherTasks.map fun t => (p.1, pyInt t.frequencyRecipiency)

/-- Number of candidate dedup buckets not yet holding an alias: the
termination measure of the delivery cascade. -/
def RadioTransmissionMediumSystem.countMissing (m : RadioTransmissionMediumSystem)
    (visited : List (Int × Int)) : Nat :=
  (m.candPairs.filter fun p => decide (p ∉ visited)).length

/-- Embedding of `add_signal` with the provably sufficient fuel. -/
def RadioTransmissionMediumSystem.addSignal (m : RadioTransmissionMediumSystem)
    (al : AliasState) (signal : Radiosignal) :
    Except String (AliasState × Radiosignal) :=
  (addSignalFuel (m.countMissing al.visited + 1) m al signal).getD
    (Except.error "unreachable: fuel exhausted")

/-- Resolution of the aliases of the live signal object once a top-level
`add_signal` call has finished: each dedup bucket in `visited` and inbox
bucket in `pending` holds the object, whose value is now `final`. -/
def RadioTransmissionMediumSystem.resolveAlias (m : RadioTransmissionMediumSystem)
    (al : AliasState) (final : Radiosignal) : RadioTransmissionMediumSystem :=
  let afterDedup := al.visited.foldl
    (fun acc p => { acc with consumers := updateD acc.consumers p.1 (fun c =>
        { c with dictGettingInformation := insertAppend c.dictGettingInformation p.2 final }) })
    m
  al.pending.foldl
    (fun acc p => { acc with consumers := updateD acc.consumers p.1 (fun c =>
        { c with dictFrequencySignalToReceive :=
            insertAppend c.dictFrequencySignalToReceive p.2 final }) })
    afterDedup

/-- Delivery of one signal as the medium's `imitation_step` does it: run
the `add_signal` cascade and resolve the aliases of the (now frozen)
signal object to its final value. -/
def RadioTransmissionMediumSystem.deliverSignal (m : RadioTransmissionMediumSystem)
    (signal : Radiosignal) : Except String RadioTransmissionMediumSystem :=
  match m.addSignal {} signal with
  | Except.error e => Except.error e
  | Except.ok (al, final) => Except.ok (m.resolveAlias al final)

/-- Operating mode of a transmit-receive device (`CommunicationModeType`). -/
inductive CommunicationModeType where
  | TRANSMISSION
  | RECEPTION
  | RELAYING_IN
  | RELAYING_OUT
  | FREE
deriving DecidableEq, Repr

/-- Properties of a transmit-receive device
(`TransmitReceiveDeviceProperties`).  The opaque scalar fields that no
embedded operation ever reads (mass, guid time, loss coefficients, noise
ratio, network id, offset angle) are omitted. -/
structure TransmitReceiveDeviceProperties where
  channelCapacityTransmit : ℚ
  channelCapacityReceive : ℚ
  frequencyRangeMin : ℚ
  frequencyRangeMax : ℚ
  consumption : ℚ
  consumptionTransmission : Option ℚ := none
  consumptionReception : Option ℚ := none
deriving DecidableEq, Repr

/-- Constructor plus `__post_init__` of the device properties: rejects
`frequency_range_min > frequency_range_max` and defaults the two optional
consumption fields to `consumption`. -/
def mkTransmitReceiveDeviceProperties (channelCapacityTransmit channelCapacityReceive
    frequencyRangeMin frequencyRangeMax consumption : ℚ)
    (consumptionTransmission : Option ℚ := none)
    (consumptionReception : Option ℚ := none) :
    Except String TransmitReceiveDeviceProperties :=
  if frequencyRangeMin > frequencyRangeMax then
    Except.error "Must be frequency_range_min <= frequency_range_max."
  else
    Except.ok
      { channelCapacityTransmit := channelCapacityTransmit
        channelCapacityReceive := channelCapacityReceive
        frequencyRangeMin := frequencyRangeMin
        frequencyRangeMax := frequencyRangeMax
        consumption := consumption
        consumptionTransmission :=
          some (consumptionTransmission.getD consumption)
        consumptionReception :=
          some (consumptionReception.getD consumption) }

/-- State of a transmit-receive device (`TransmitReceiveDevice`). -/
structure TransmitReceiveDevice where
  idAntenna : Int
  properties : TransmitReceiveDeviceProperties
  frequency : ℚ
  communicationMode : CommunicationModeType
deriving DecidableEq, Repr

/-- Device constructor: the working frequency starts at the midpoint of
the frequency range and the mode starts `FREE`. -/
def mkTransmitReceiveDevice (idAntenna : Int)
    (properties : TransmitReceiveDeviceProperties) : TransmitReceiveDevice :=
  { idAntenna := idAntenna
    properties := properties
    frequency := (properties.frequencyRangeMax + properties.frequencyRangeMin) / 2
    communicationMode := CommunicationModeType.FREE }

/-- Method `TransmitReceiveDevice.set_frequency`: raises when the new
frequency falls outside the device's range (both checks are strict, so the
bounds themselves are accepted), and assigns it only after the checks. -/
def TransmitReceiveDevice.setFrequency (d : TransmitReceiveDevice) (frequency : ℚ) :
    Except String TransmitReceiveDevice :=
  if frequency < d.properties.frequencyRangeMin then
    Except.error "Must be: frequency >= frequency_range_min."
  else if frequency > d.properties.frequencyRangeMax then
    Except.error "Must be: frequency <= frequency_range_max."
  else Except.ok { d with frequency := frequency }

/-- Relay channel of the local system (`RelayChannel`).  The Python tuple
stores the two device objects; object identity is represented by the
registry key (antenna id), which is also what the tuple's `__eq__`
effectively compares. -/
structure RelayChannel where
  antennaIn : Int
  antennaOut : Int
  idDestinationRelay : Int
  idAntennaDestinationRelay : Option Int := none
  saveRelayedSignalsLocallyRelay : Bool := false
deriving DecidableEq, Repr

/-- State of the local radio system (`RadiotransmissionSystem`).  The
local-consumer registry (used only by the thin consumer adapter) is not
modelled; devices are kept in `antennas` keyed by antenna id, and the
per-tick channel collections hold antenna ids where Python holds object
references into the same registry.
`dictReceptionChannelFromPrevStep` is the deep copy taken during
`imitation_step`, so it stores device values detached from the registry. -/
structure RadiotransmissionSystem where
  antennas : List (Int × TransmitReceiveDevice) := []
  frequencyAccuracy : ℚ := 1
  listTransmissionChannel : List Int := []
  dictReceptionChannel : List Int := []
  dictReceptionChannelFromPrevStep : List (Int × TransmitReceiveDevice) := []
  listRelayChannel : List RelayChannel := []
  dictSignalsToSend : List (Int × List Radiosignal) := []
  dictIdDeviceMemoryBlocksToReceive : List (Int × List MemoryBlock) := []
  duration : Option ℚ := none
deriving DecidableEq, Repr

/-- Method `RadiotransmissionSystem.add_device`: the new device gets the
next integer id (the current number of registered devices). -/
def RadiotransmissionSystem.addDevice (ls : RadiotransmissionSystem)
    (deviceProperties : TransmitReceiveDeviceProperties) : RadiotransmissionSystem :=
  let id0 : Int := (ls.antennas.length : Int)
  { ls with antennas := ls.antennas ++ [(id0, mkTransmitReceiveDevice id0 deviceProperties)] }

/-- Accessor backing `RadiotransmissionConsumer.get_antennas_signals`. -/
def RadiotransmissionSystem.getAntennasSignals (ls : RadiotransmissionSystem)
    (idAntenna : Int) : List MemoryBlock :=
  (lookupD ls.dictIdDeviceMemoryBlocksToReceive idAntenna).getD []

/-- Message raised in `imitation_step` when a staged signal exceeds the
transmit capacity of its device. -/
def capacityErrorMessage : String :=
  "This transmit-receive device has not enough channel capacity to send the signal"

/-- Method `RadiotransmissionSystem.assign_device_as_transmitter`.
Checks mode exclusivity and per-tick frequency consistency, then sets the
mode, optionally retunes the device (a falsy frequency `0`/`None` is
skipped), stages the signal keyed by the device's antenna id, and records
the device in the transmission list.  Returns `false` on success. -/
def RadiotransmissionSystem.assignDeviceAsTransmitter (ls : RadiotransmissionSystem)
    (memoryBlock : MemoryBlock) (idAntenna : Int) (idReceiver : Int)
    (frequency : Option ℚ := none) (idAntennaReceiver : Option Int := none) :
    Except String (Bool × RadiotransmissionSystem) :=
  match lookupD ls.antennas idAntenna with
  | none => Except.error "KeyError"
  | some antenna =>
    if antenna.communicationMode ≠ CommunicationModeType.FREE ∧
        antenna.communicationMode ≠ CommunicationModeType.TRANSMISSION then
      Except.error "The transmit-receive device assigning for Transmission mode works on another mode on the imitation step"
    else if idAntenna ∈ ls.listTransmissionChannel ∧
        (pyNeOpt antenna.frequency frequency = true ∧ frequency ≠ none) then
      Except.error "The transmit-receive device assigning for Transmission mode is going to work on another frequency on the imitation step"
    else
      let antenna1 := { antenna with communicationMode := CommunicationModeType.TRANSMISSION }
      let retuned : Except String TransmitReceiveDevice :=
        match frequency with
        | some f => if f = 0 then Except.ok antenna1 else antenna1.setFrequency f
        | none => Except.ok antenna1
      match retuned with
      | Except.error e => Except.error e
      | Except.ok antenna2 =>
        let signal : Radiosignal :=
          { idTransmitter := -1, idReceiver := idReceiver, memory := memoryBlock,
            frequency := antenna2.frequency, idAntennaReceiver := idAntennaReceiver }
        Except.ok (false,
          { ls with
            antennas := updateD ls.antennas idAntenna (fun _ => antenna2)
            dictSignalsToSend := insertAppend ls.dictSignalsToSend antenna2.idAntenna signal
            listTransmissionChannel :=
              if idAntenna ∈ ls.listTransmissionChannel then ls.listTransmissionChannel
              else ls.listTransmissionChannel ++ [idAntenna] })

/-- Method `RadiotransmissionSystem.assign_device_as_receiver`.  Note the
second guard: when called without a frequency for a device already in the
reception map, the Python comparison `antenna.frequency != None` is true
and the call raises.  Returns `true` on success. -/
def RadiotransmissionSystem.assignDeviceAsReceiver (ls : RadiotransmissionSystem)
    (idAntenna : Int) (frequency : Option ℚ := none) :
    Except String (Bool × RadiotransmissionSystem) :=
  match lookupD ls.antennas idAntenna with
  | none => Except.error "KeyError"
  | some antenna =>
    if antenna.communicationMode ≠ CommunicationModeType.FREE ∧
        antenna.communicationMode ≠ CommunicationModeType.RECEPTION then
      Except.error "The transmit-receive device assigning for Reception mode works on another mode on the imitation step"
    else if idAntenna ∈ ls.dictReceptionChannel ∧ pyNeOpt antenna.frequency frequency = true then
      Except.error "The transmit-receive device assigning for Reception mode is going to work on another frequency on the imitation step"
    else
      let antenna1 := { antenna with communicationMode := CommunicationModeType.RECEPTION }
      let retuned : Except String TransmitReceiveDevice :=
        match frequency with
        | some f => if f = 0 then Except.ok antenna1 else antenna1.setFrequency f
        | none => Except.ok antenna1
      match retuned with
      | Except.error e => Except.error e
      | Except.ok antenna2 =>
        Except.ok (true,
          { ls with
            antennas := updateD ls.antennas idAntenna (fun _ => antenna2)
            dictReceptionChannel :=
              if idAntenna ∈ ls.dictReceptionChannel then ls.dictReceptionChannel
              else ls.dictReceptionChannel ++ [idAntenna] })

/-- Method `RadiotransmissionSystem.assign_device_as_repeater`.  The four
guards are embedded as written in the source: the second one re-checks the
inbound device (not the outbound one) against `RELAYING_OUT`, and the
frequency guards test mere truthiness of the device frequency.  Returns
`true` on success. -/
def RadiotransmissionSystem.assignDeviceAsRepeater (ls : RadiotransmissionSystem)
    (idAntennaIn idAntennaOut : Int) (idDestinationRelay : Int)
    (idAntennaDestinationRelay : Option Int := none)
    (frequencyIn : Option ℚ := none) (frequencyOut : Option ℚ := none)
    (saveRelayedSignalsLocallyRelay : Bool := false) :
    Except String (Bool × RadiotransmissionSystem) :=
  match lookupD ls.antennas idAntennaIn, lookupD ls.antennas idAntennaOut with
  | none, _ => Except.error "KeyError"
  | some _, none => Except.error "KeyError"
  | some antennaIn, some antennaOut =>
    if antennaIn.communicationMode ≠ CommunicationModeType.FREE ∧
        antennaIn.communicationMode ≠ CommunicationModeType.RELAYING_IN then
      Except.error "The transmit-receive device assigning for Relaying_in mode works on another mode on the imitation step"
    else if antennaIn.communicationMode ≠ CommunicationModeType.FREE ∧
        antennaIn.communicationMode ≠ CommunicationModeType.RELAYING_OUT then
      Except.error "The transmit-receive device assigning for Relaying_out mode works on another mode on the imitation step"
    else if idAntennaIn ∈ ls.listRelayChannel.map RelayChannel.antennaIn ∧
        antennaIn.frequency ≠ 0 then
      Except.error "The transmit-receive device assigning for Relaying_in mode is going to work on another frequency on the imitation step"
    else if idAntennaOut ∈ ls.listRelayChannel.map RelayChannel.antennaOut ∧
        antennaOut.frequency ≠ 0 then
      Except.error "The transmit-receive device assigning for Relaying_out mode is going to work on another frequency on the imitation step"
    else
      let antennaIn1 := { antennaIn with communicationMode := CommunicationModeType.RELAYING_IN }
      let ls1 := { ls with antennas := updateD ls.antennas idAntennaIn (fun _ => antennaIn1) }
      let antennaOut1 :=
        match lookupD ls1.antennas idAntennaOut with
        | some a => { a with communicationMode := CommunicationModeType.RELAYING_OUT }
        | none => { antennaOut with communicationMode := CommunicationModeType.RELAYING_OUT }
      let ls2 := { ls1 with antennas := updateD ls1.antennas idAntennaOut (fun _ => antennaOut1) }
      let retunedIn : Except String TransmitReceiveDevice :=
        match frequencyIn with
        | some f => if f = 0 then Except.ok antennaIn1 else antennaIn1.setFrequency f
        | none => Except.ok antennaIn1
      match retunedIn with
      | Except.error e => Except.error e
      | Except.ok antennaIn2 =>
        let ls3 := { ls2 with antennas := updateD ls2.antennas idAntennaIn (fun _ => antennaIn2) }
        let antennaOut2 :=
          match lookupD ls3.antennas idAntennaOut with
          | some a => a
          | none => antennaOut1
        let retunedOut : Except String TransmitReceiveDevice :=
          match frequencyOut with
          | some f => if f = 0 then Except.ok antennaOut2 else antennaOut2.setFrequency f
          | none => Except.ok antennaOut2
        match retunedOut with
        | Except.error e => Except.error e
        | Except.ok antennaOut3 =>
          let ls4 := { ls3 with antennas := updateD ls3.antennas idAntennaOut (fun _ => antennaOut3) }
          let relayChannel : RelayChannel :=
            { antennaIn := idAntennaIn, antennaOut := idAntennaOut,
              idDestinationRelay := idDestinationRelay,
              idAntennaDestinationRelay := idAntennaDestinationRelay,
              saveRelayedSignalsLocallyRelay := saveRelayedSignalsLocallyRelay }
          Except.ok (true,
            { ls4 with
              listRelayChannel :=
                if relayChannel ∈ ls4.listRelayChannel then ls4.listRelayChannel
                else ls4.listRelayChannel ++ [relayChannel] })

/-- Inner loop of `imitation_step` over the staged signals of one
transmitting device: a signal whose payload exceeds the device's transmit
capacity for this duration raises the capacity error; otherwise the device
is put in transmission mode and the signal is forwarded to the bound
global consumer via `send_signal` (whose boolean result is ignored).
A zero duration raises at the division, as Python float division does. -/
def RadiotransmissionSystem.transmitSignals (d : ℚ) (idAntenna : Int)
    (antenna : TransmitReceiveDevice) :
    List Radiosignal → List (Int × TransmitReceiveDevice) →
    RadioTransmissionMediumConsumer →
    Except String (List (Int × TransmitReceiveDevice) × RadioTransmissionMediumConsumer)
  | [], ants, gc => Except.ok (ants, gc)
  | signal :: rest, ants, gc =>
    if d = 0 then Except.error "ZeroDivisionError: float division by zero"
    else if antenna.properties.channelCapacityTransmit ≥ (signal.memory.size : ℚ) / d then
      let ants1 := updateD ants idAntenna
        (fun a => { a with communicationMode := CommunicationModeType.TRANSMISSION })
      let gc1 := (gc.sendSignal signal.idReceiver signal.memory (some signal.frequency)
        signal.idAntennaReceiver).2
      RadiotransmissionSystem.transmitSignals d idAntenna antenna rest ants1 gc1
    else Except.error capacityErrorMessage

/-- Outer transmission loop of `imitation_step` over
`dict_signals_to_send`; looking up a staged antenna id that is not in the
registry raises a `KeyError` as in Python. -/
def RadiotransmissionSystem.transmitLoop (d : ℚ) :
    List (Int × List Radiosignal) → List (Int × TransmitReceiveDevice) →
    RadioTransmissionMediumConsumer →
    Except String (List (Int × TransmitReceiveDevice) × RadioTransmissionMediumConsumer)
  | [], ants, gc => Except.ok (ants, gc)
  | (idAntenna, signals) :: rest, ants, gc =>
    match lookupD ants idAntenna with
    | none => Except.error "KeyError"
    | some antenna =>
      match RadiotransmissionSystem.transmitSignals d idAntenna antenna signals ants gc with
      | Except.error e => Except.error e
      | Except.ok (ants1, gc1) => RadiotransmissionSystem.transmitLoop d rest ants1 gc1

/-- Reception loop of `imitation_step`: every device of the reception map
is put in reception mode and a listen request at the device's current
frequency and antenna id goes to the bound global consumer. -/
def RadiotransmissionSystem.receptionLoop :
    List Int → List (Int × TransmitReceiveDevice) → RadioTransmissionMediumConsumer →
    List (Int × TransmitReceiveDevice) × RadioTransmissionMediumConsumer
  | [], ants, gc => (ants, gc)
  | idAntenna :: rest, ants, gc =>
    match lookupD ants idAntenna with
    | none => RadiotransmissionSystem.receptionLoop rest ants gc
    | some antenna =>
      let ants1 := updateD ants idAntenna
        (fun a => { a with communicationMode := CommunicationModeType.RECEPTION })
      let gc1 := (gc.listenEther antenna.idAntenna (some antenna.frequency)).2
      RadiotransmissionSystem.receptionLoop rest ants1 gc1

/-- Relay loop of `imitation_step`: both devices of every relay channel
get their relay modes and one `i_am_repeater` request per channel goes to
the bound global consumer, carrying the two devices' current frequencies
and the channel's destination fields. -/
def RadiotransmissionSystem.relayLoop :
    List RelayChannel → List (Int × TransmitReceiveDevice) → RadioTransmissionMediumConsumer →
    List (Int × TransmitReceiveDevice) × RadioTransmissionMediumConsumer
  | [], ants, gc => (ants, gc)
  | channel :: rest, ants, gc =>
    match lookupD ants channel.antennaIn, lookupD ants channel.antennaOut with
    | some antennaIn, some antennaOut =>
      let ants1 := updateD ants channel.antennaIn
        (fun a => { a with communicationMode := CommunicationModeType.RELAYING_IN })
      let ants2 := updateD ants1 channel.antennaOut
        (fun a => { a with communicationMode := CommunicationModeType.RELAYING_OUT })
      let gc1 := (gc.iAmRepeater channel.idDestinationRelay antennaIn.idAntenna
        channel.idAntennaDestinationRelay (some antennaIn.frequency)
        (some antennaOut.frequency) channel.saveRelayedSignalsLocallyRelay).2
      RadiotransmissionSystem.relayLoop rest ants2 gc1
    | _, _ => RadiotransmissionSystem.relayLoop rest ants gc

/-- Method `RadiotransmissionSystem.imitation_step`, threading the bound
global consumer.  After the three loops, the deep copy of the reception
map is taken (device values as they are at this point of the step), all
per-tick staging is cleared, and every device's mode is reset to `FREE`. -/
def RadiotransmissionSystem.imitationStep (ls : RadiotransmissionSystem) (d : ℚ)
    (gc : RadioTransmissionMediumConsumer) :
    Except String (RadiotransmissionSystem × RadioTransmissionMediumConsumer) :=
  match RadiotransmissionSystem.transmitLoop d ls.dictSignalsToSend ls.antennas gc with
  | Except.error e => Except.error e
  | Except.ok (ants1, gc1) =>
    let (ants2, gc2) := RadiotransmissionSystem.receptionLoop ls.dictReceptionChannel ants1 gc1
    let (ants3, gc3) := RadiotransmissionSystem.relayLoop ls.listRelayChannel ants2 gc2
    let snapshot := ls.dictReceptionChannel.filterMap
      (fun i => (lookupD ants3 i).map (fun dv => (i, dv)))
    let ants4 := ants3.map
      (fun p => (p.1, { p.2 with communicationMode := CommunicationModeType.FREE }))
    Except.ok
      ({ ls with
         antennas := ants4
         duration := some d
         dictReceptionChannelFromPrevStep := snapshot
         dictIdDeviceMemoryBlocksToReceive := []
         dictSignalsToSend := []
         listTransmissionChannel := []
         dictReceptionChannel := []
         listRelayChannel := [] }, gc3)

/-- Inner loop of `finalize_step` over the signals pulled for one snapshot
device: a signal is kept only when its antenna id equals the snapshot key
and the payload fits the device's receive capacity for the stored
duration; a failing signal is skipped silently.  The division is evaluated
only when the antenna matches, so an unset or zero duration raises only
then. -/
def RadiotransmissionSystem.finalizeSignals (d : Option ℚ) (idAntenna : Int)
    (antenna : TransmitReceiveDevice) :
    List Radiosignal → List (Int × List MemoryBlock) →
    Except String (List (Int × List MemoryBlock))
  | [], acc => Except.ok acc
  | signal :: rest, acc =>
    if signal.idAntennaReceiver = some idAntenna then
      match d with
      | none => Except.error "TypeError: unsupported operand type for division: NoneType"
      | some dv =>
        if dv = 0 then Except.error "ZeroDivisionError: float division by zero"
        else if antenna.properties.channelCapacityReceive ≥ (signal.memory.size : ℚ) / dv then
          RadiotransmissionSystem.finalizeSignals d idAntenna antenna rest
            (insertAppend acc idAntenna signal.memory)
        else RadiotransmissionSystem.finalizeSignals d idAntenna antenna rest acc
    else RadiotransmissionSystem.finalizeSignals d idAntenna antenna rest acc

/-- Loop of `finalize_step` over the previous-step reception snapshot:
each snapshot device pulls the global consumer's inbox bucket at the
device's (snapshot) frequency. -/
def RadiotransmissionSystem.finalizeLoop (gc : RadioTransmissionMediumConsumer)
    (d : Option ℚ) :
    List (Int × TransmitReceiveDevice) → List (Int × List MemoryBlock) →
    Except String (List (Int × List MemoryBlock))
  | [], acc => Except.ok acc
  | (idAntenna, antenna) :: rest, acc =>
    match RadiotransmissionSystem.finalizeSignals d idAntenna antenna
        (gc.receiveSignal (some antenna.frequency)) acc with
    | Except.error e => Except.error e
    | Except.ok acc1 => RadiotransmissionSystem.finalizeLoop gc d rest acc1

/-- Method `RadiotransmissionSystem.finalize_step`: consumes the
previous-step reception snapshot and accumulates the surviving memory
blocks per antenna id. -/
def RadiotransmissionSystem.finalizeStep (ls : RadiotransmissionSystem)
    (gc : RadioTransmissionMediumConsumer) : Except String RadiotransmissionSystem :=
  match RadiotransmissionSystem.finalizeLoop gc ls.duration
      ls.dictReceptionChannelFromPrevStep ls.dictIdDeviceMemoryBlocksToReceive with
  | Except.error e => Except.error e
  | Except.ok acc => Except.ok { ls with dictIdDeviceMemoryBlocksToReceive := acc }

/-- Memory block used by the concrete scenarios. -/
def sampleMemory : MemoryBlock := { memoryId := 121, blockStart := 3, blockEnd := 4 }

/-- Consumer 1 of the mutual-relay scenario: relays what arrives at
frequency 100 on antenna 1 to consumer 2, frequency 100, antenna 2. -/
def twoRelayConsumer1 : RadioTransmissionMediumConsumer :=
  { properties := { frequency := 100, idConsumer := 1 },
    listenEtherTasks := [
      { frequencyRecipiency := 100, idAntennaReceiver := some 1,
        frequencyTransmissionRelay := some 100, idDestinationRelay := some 2,
        idAntennaDestinationRelay := some 2 } ] }

/-- Consumer 2 of the mutual-relay scenario: relays what arrives at
frequency 100 on antenna 2 back to consumer 1, frequency 100, antenna 1. -/
def twoRelayConsumer2 : RadioTransmissionMediumConsumer :=
  { properties := { frequency := 100, idConsumer := 2 },
    listenEtherTasks := [
      { frequencyRecipiency := 100, idAntennaReceiver := some 2,
        frequencyTransmissionRelay := some 100, idDestinationRelay := some 1,
        idAntennaDestinationRelay := some 1 } ] }

/-- Medium with the two mutually relaying endpoints. -/
def twoRelayMedium : RadioTransmissionMediumSystem :=
  { consumers := [(1, twoRelayConsumer1), (2, twoRelayConsumer2)] }

/-- Signal entering the mutual-relay cycle at consumer 1. -/
def twoRelaySignal : Radiosignal :=
  { idTransmitter := 0, idReceiver := 1, memory := sampleMemory,
    frequency := 100, idAntennaReceiver := some 1 }

/-- Endpoint with two distinct listen tasks on the same antenna whose
frequencies 100.2 and 100.7 truncate to the same bucket 100. -/
def fanoutConsumer : RadioTransmissionMediumConsumer :=
  { properties := { frequency := 100, idConsumer := 1 },
    listenEtherTasks := [
      { frequencyRecipiency := 1002/10, idAntennaReceiver := some 1 },
      { frequencyRecipiency := 1007/10, idAntennaReceiver := some 1 } ] }

/-- Medium holding only `fanoutConsumer`. -/
def fanoutMedium : RadioTransmissionMediumSystem :=
  { consumers := [(1, fanoutConsumer)] }

/-- Signal at 100.5 that matches both tasks of `fanoutConsumer`. -/
def fanoutSignal : Radiosignal :=
  { idTransmitter := 0, idReceiver := 1, memory := sampleMemory,
    frequency := 201/2, idAntennaReceiver := some 1 }

/-- Endpoint with one keep-local-copy relay task towards the unregistered
consumer 2. -/
def relayCopyConsumer : RadioTransmissionMediumConsumer :=
  { properties := { frequency := 100, idConsumer := 1 },
    listenEtherTasks := [
      { frequencyRecipiency := 100, idAntennaReceiver := some 1,
        frequencyTransmissionRelay := some 150, idDestinationRelay := some 2,
        idAntennaDestinationRelay := some 2,
        saveRelayedSignalsLocallyRelay := true } ] }

/-- Medium holding only `relayCopyConsumer`. -/
def relayCopyMedium : RadioTransmissionMediumSystem :=
  { consumers := [(1, relayCopyConsumer)] }

/-- Signal the relay task of `relayCopyConsumer` matches. -/
def relayCopySignal : Radiosignal :=
  { idTransmitter := 0, idReceiver := 1, memory := sampleMemory,
    frequency := 100, idAntennaReceiver := some 1 }

/-- Plain consumer used by the duplicate-repeater counterexample. -/
def plainConsumer : RadioTransmissionMediumConsumer :=
  { properties := { frequency := 100, idConsumer := 1 } }

/-- Consumer whose default carrier frequency is 0. -/
def zeroFrequencyConsumer : RadioTransmissionMediumConsumer :=
  { properties := { frequency := 0, idConsumer := 1 } }

/-- Device properties used by the concrete local-system scenarios:
capacities 100 and frequency range 50 to 200 (as in the project's test). -/
def sampleDeviceProperties : TransmitReceiveDeviceProperties :=
  { channelCapacityTransmit := 100, channelCapacityReceive := 100,
    frequencyRangeMin := 50, frequencyRangeMax := 200,
    consumption := 10, consumptionTransmission := some 10,
    consumptionReception := some 10 }

/-- Concrete local system: two fresh devices 0 and 1 (both at the midpoint
frequency 125), nothing staged. -/
def sampleLocalSystem : RadiotransmissionSystem :=
  (RadiotransmissionSystem.addDevice
    (RadiotransmissionSystem.addDevice {} sampleDeviceProperties) sampleDeviceProperties)

/-- Concrete bound global consumer for the local-system scenarios. -/
def sampleGlobalConsumer : RadioTransmissionMediumConsumer :=
  { properties := { frequency := 100, idConsumer := 1 } }

/-- Endpoint whose single listen task sits exactly at the accuracy
boundary away from the test signal's frequency. -/
def boundaryConsumer : RadioTransmissionMediumConsumer :=
  { properties := { frequency := 100, idConsumer := 1 },
    listenEtherTasks := [ { frequencyRecipiency := 110, idAntennaReceiver := some 1 } ] }

/-- Medium holding only `boundaryConsumer` (accuracy 10). -/
def boundaryMedium : RadioTransmissionMediumSystem :=
  { consumers := [(1, boundaryConsumer)] }

/-- Signal at frequency 100, exactly accuracy away from the 110 task. -/
def boundarySignal : Radiosignal :=
  { idTransmitter := 0, idReceiver := 1, memory := sampleMemory,
    frequency := 100, idAntennaReceiver := some 1 }

/-- Consumer with the given id, default frequency and task list, and
fresh per-tick state (as right after the medium's per-step reset). -/
def singleConsumer (cid : Int) (f0 : ℚ) (ts : List ListenEtherTask) :
    RadioTransmissionMediumConsumer :=
  { properties := { frequency := f0, idConsumer := cid }, listenEtherTasks := ts }

/-- Medium with one registered consumer and the given accuracy. -/
def singleConsumerMedium (cid : Int) (f0 acc : ℚ) (ts : List ListenEtherTask) :
    RadioTransmissionMediumSystem :=
  { consumers := [(cid, singleConsumer cid f0 ts)], frequencyAccuracy := acc }

/-- The same one-consumer medium after a delivery wrote the given inbox
and dedup buckets. -/
def singleConsumerMediumAfter (cid : Int) (f0 acc : ℚ) (ts : List ListenEtherTask)
    (inbox dedup : List (Int × List Radiosignal)) : RadioTransmissionMediumSystem :=
  { consumers := [(cid,
      { properties := { frequency := f0, idConsumer := cid },
        dictFrequencySignalToReceive := inbox,
        listenEtherTasks := ts,
        dictGettingInformation := dedup })],
    frequencyAccuracy := acc }

/-- Invariant of one device: its working frequency lies inside its
frequency range. -/
def DeviceInRange (d : TransmitReceiveDevice) : Prop :=
  d.properties.frequencyRangeMin ≤ d.frequency ∧
    d.frequency ≤ d.properties.frequencyRangeMax

/-- Invariant of a device registry: every registered device is in range. -/
def AllDevicesInRange (l : List (Int × TransmitReceiveDevice)) : Prop :=
  ∀ p ∈ l, DeviceInRange p.2

/-- Relation between two registries: same keys, and pointwise the same
antenna id, frequency and properties (only the mode may differ). -/
def SameFP (a b : List (Int × TransmitReceiveDevice)) : Prop :=
  ∀ j, (lookupD b j).map (fun d => (d.idAntenna, d.frequency, d.properties))
    = (lookupD a j).map (fun d => (d.idAntenna, d.frequency, d.properties))

instance (d : TransmitReceiveDevice) : Decidable (DeviceInRange d) :=
  inferInstanceAs (Decidable (_ ≤ _ ∧ _ ≤ _))

instance (l : List (Int × TransmitReceiveDevice)) : Decidable (AllDevicesInRange l) :=
  inferInstanceAs (Decidable (∀ p ∈ l, DeviceInRange p.2))

/-- Memory block whose payload (200) exceeds the sample transmit capacity
(100) at duration 1. -/
def overMemory : MemoryBlock := { memoryId := 1, blockStart := 0, blockEnd := 200 }

/-- The sample system after staging the over-sized payload on device 0. -/
def overCapacityLocalSystem : RadiotransmissionSystem :=
  ((sampleLocalSystem.assignDeviceAsTransmitter overMemory 0 2 (some 100) none).toOption.getD
    (false, sampleLocalSystem)).2

/-- Device 0 of the sample system after the transmitter assignment. -/
def overCapacityDevice : TransmitReceiveDevice :=
  { idAntenna := 0, properties := sampleDeviceProperties, frequency := 100,
    communicationMode := CommunicationModeType.TRANSMISSION }

/-- The staged over-sized signal. -/
def overCapacitySignal : Radiosignal :=
  { idTransmitter := -1, idReceiver := 2, memory := overMemory, frequency := 100,
    idAntennaReceiver := none }

/-- Snapshot device used by the finalize scenarios: a receiver at
frequency 100. -/
def finalizeDevice : TransmitReceiveDevice :=
  { idAntenna := 0, properties := sampleDeviceProperties, frequency := 100,
    communicationMode := CommunicationModeType.RECEPTION }

/-- Local system right before `finalize_step`: one snapshot receiver and a
stored duration of 1. -/
def finalizeLocalSystem : RadiotransmissionSystem :=
  { antennas := [(0, finalizeDevice)],
    dictReceptionChannelFromPrevStep := [(0, finalizeDevice)],
    duration := some 1 }

/-- Signal that fits the receive capacity (payload 50). -/
def finalizeGoodSignal : Radiosignal :=
  { idTransmitter := 2, idReceiver := 1,
    memory := { memoryId := 7, blockStart := 0, blockEnd := 50 },
    frequency := 100, idAntennaReceiver := some 0 }

/-- Signal exceeding the receive capacity (payload 500). -/
def finalizeBadSignal : Radiosignal :=
  { idTransmitter := 2, idReceiver := 1,
    memory := { memoryId := 8, blockStart := 0, blockEnd := 500 },
    frequency := 100, idAntennaReceiver := some 0 }

/-- Global consumer whose inbox bucket 100 holds one fitting and one
over-sized signal. -/
def finalizeGlobalConsumer : RadioTransmissionMediumConsumer :=
  { properties := { frequency := 100, idConsumer := 1 },
    dictFrequencySignalToReceive := [(100, [finalizeGoodSignal, finalizeBadSignal])] }

/-- Sample system with device 0 assigned as receiver at frequency 100. -/
def receiverLocalSystem : RadiotransmissionSystem :=
  ((sampleLocalSystem.assignDeviceAsReceiver 0 (some 100)).toOption.getD
    (true, sampleLocalSystem)).2

/-- The receiver system and its bound consumer after one local step. -/
def steppedLocalPair : RadiotransmissionSystem × RadioTransmissionMediumConsumer :=
  (receiverLocalSystem.imitationStep 1 sampleGlobalConsumer).toOption.getD
    (receiverLocalSystem, sampleGlobalConsumer)

/-- The stepped system with device 1 reassigned as a receiver at 150
before finalize is called. -/
def reassignedLocalSystem : RadiotransmissionSystem :=
  ((steppedLocalPair.1.assignDeviceAsReceiver 1 (some 150)).toOption.getD
    (true, steppedLocalPair.1)).2

/-! Helper lemmas about the association-list and filter primitives. -/

theorem lookupD_mem {α : Type} {l : List (Int × α)} {k : Int} {v : α}
    (h : lookupD l k = some v) : (k, v) ∈ l := by
  induction l with
  | nil => simp [lookupD] at h
  | cons p t ih =>
    obtain ⟨k', v'⟩ := p
    simp only [lookupD] at h
    split at h
    · rename_i hk
      obtain rfl := hk
      obtain rfl : v' = v := by injection h
      exact List.mem_cons_self _ _
    · exact List.mem_cons_of_mem _ (ih h)

theorem length_filter_notMem_le (l : List (Int × Int)) {v w : List (Int × Int)}
    (h : ∀ x, x ∈ v → x ∈ w) :
    (l.filter fun x => decide (x ∉ w)).length ≤ (l.filter fun x => decide (x ∉ v)).length := by
  induction l with
  | nil => exact Nat.le_refl _
  | cons a t ih =>
    by_cases haw : a ∈ w
    · rw [List.filter_cons_of_neg (by simpa using haw)]
      by_cases hav : a ∈ v
      · rw [List.filter_cons_of_neg (by simpa using hav)]
        exact ih
      · rw [List.filter_cons_of_pos (by simpa using hav)]
        exact Nat.le_succ_of_le ih
    · have hav : a ∉ v := fun hx => haw (h _ hx)
      rw [List.filter_cons_of_pos (by simpa using haw),
        List.filter_cons_of_pos (by simpa using hav)]
      exact Nat.succ_le_succ ih

theorem length_filter_notMem_append_lt {l : List (Int × Int)} {p : Int × Int}
    (hp : p ∈ l) {v : List (Int × Int)} (hv : p ∉ v) :
    (l.filter fun x => decide (x ∉ v ++ [p])).length <
      (l.filter fun x => decide (x ∉ v)).length := by
  induction l with
  | nil => simp at hp
  | cons a t ih =>
    by_cases hap : a = p
    · subst hap
      rw [List.filter_cons_of_neg (by simp), List.filter_cons_of_pos (by simpa using hv)]
      have hmono := length_filter_notMem_le (v := v) (w := v ++ [a]) t
        (fun x hx => List.mem_append_left _ hx)
      exact Nat.lt_succ_of_le hmono
    · have hpt : p ∈ t := by
        rcases List.mem_cons.mp hp with h | h
        · exact absurd h.symm hap
        · exact h
      have hsame : (a ∈ v ++ [p]) ↔ (a ∈ v) := by
        simp [List.mem_append, hap]
      by_cases hav : a ∈ v
      · rw [List.filter_cons_of_neg (by simp [hsame.mpr hav]),
          List.filter_cons_of_neg (by simpa using hav)]
        exact ih hpt
      · rw [List.filter_cons_of_pos (by simp [hav, hap]),
          List.filter_cons_of_pos (by simpa using hav)]
        exact Nat.succ_lt_succ (ih hpt)

theorem countMissing_mono (m : RadioTransmissionMediumSystem) {v w : List (Int × Int)}
    (h : ∀ x, x ∈ v → x ∈ w) : m.countMissing w ≤ m.countMissing v := by
  unfold RadioTransmissionMediumSystem.countMissing
  exact length_filter_notMem_le m.candPairs h

theorem countMissing_append_lt (m : RadioTransmissionMediumSystem) {p : Int × Int}
    {v : List (Int × Int)} (hp : p ∈ m.candPairs) (hv : p ∉ v) :
    m.countMissing (v ++ [p]) < m.countMissing v := by
  unfold RadioTransmissionMediumSystem.countMissing
  exact length_filter_notMem_append_lt hp hv

theorem mem_candPairs_of_lookupD {m : RadioTransmissionMediumSystem} {cid : Int}
    {c : RadioTransmissionMediumConsumer} {t : ListenEtherTask}
    (hc : lookupD m.consumers cid = some c) (ht : t ∈ c.listenEtherTasks) :
    (cid, pyInt t.frequencyRecipiency) ∈ m.candPairs := by
  have hmem : (cid, c) ∈ m.consumers := lookupD_mem hc
  simp only [RadioTransmissionMediumSystem.candPairs, List.mem_flatMap]
  exact ⟨(cid, c), hmem, List.mem_map.mpr ⟨t, ht, rfl⟩⟩

theorem processListenTasks_visited_sub
    (rec : RadioTransmissionMediumSystem → AliasState → Radiosignal →
      Option (Except String (AliasState × Radiosignal)))
    (m : RadioTransmissionMediumSystem) (cid : Int)
    (hrec : ∀ al sig r, rec m al sig = some (Except.ok r) →
      ∀ p, p ∈ al.visited → p ∈ r.1.visited) :
    ∀ (ts : List ListenEtherTask) (al : AliasState) (sig : Radiosignal) r,
      processListenTasks rec m cid ts al sig = some (Except.ok r) →
      ∀ p, p ∈ al.visited → p ∈ r.1.visited := by
  intro ts
  induction ts with
  | nil =>
    intro al sig r h p hp
    simp only [processListenTasks, Option.some.injEq, Except.ok.injEq] at h
    rw [← h]
    exact hp
  | cons t rest ih =>
    intro al sig r h p hp
    simp only [processListenTasks] at h
    split at h
    · simp at h
    · split at h
      · split at h
        · exact ih _ _ _ h p hp
        · split at h
          · split at h
            · simp at h
            · rename_i heqrec
              split at h
              · simp at h
              · simp at h
              · rename_i al3sig3 heq
                have hp2 : p ∈ (AliasState.mk (al.visited ++ [(cid, pyInt t.frequencyRecipiency)])
                    al.pending).visited := List.mem_append_left _ hp
                have hp2' : p ∈ (if t.saveRelayedSignalsLocallyRelay then
                    AliasState.mk (al.visited ++ [(cid, pyInt t.frequencyRecipiency)])
                      (al.pending ++ [(cid, pyInt t.frequencyRecipiency)])
                    else AliasState.mk (al.visited ++ [(cid, pyInt t.frequencyRecipiency)])
                      al.pending).visited := by
                  split
                  · exact List.mem_append_left _ hp
                  · exact List.mem_append_left _ hp
                have hp3 := hrec _ _ _ heq p hp2'
                exact ih _ _ _ h p hp3
          · have hp2 : p ∈ al.visited ++ [(cid, pyInt t.frequencyRecipiency)] :=
              List.mem_append_left _ hp
            exact ih _ _ _ h p hp2
      · exact ih _ _ _ h p hp

theorem addSignalFuel_visited_sub :
    ∀ (n : Nat) (m : RadioTransmissionMediumSystem) (al : AliasState) (sig : Radiosignal) r,
      addSignalFuel n m al sig = some (Except.ok r) →
      ∀ p, p ∈ al.visited → p ∈ r.1.visited := by
  intro n
  induction n with
  | zero => intro m al sig r h; simp [addSignalFuel] at h
  | succ n ih =>
    intro m al sig r h p hp
    simp only [addSignalFuel] at h
    split at h
    · simp only [Option.some.injEq, Except.ok.injEq] at h
      rw [← h]
      exact hp
    · exact processListenTasks_visited_sub _ m _ (fun al sig r h => ih m al sig r h)
        _ _ _ _ h p hp

theorem processListenTasks_isSome
    (n : Nat) (m : RadioTransmissionMediumSystem) (cid : Int)
    (hS1 : ∀ al sig, m.countMissing al.visited < n →
      (addSignalFuel n m al sig).isSome = true) :
    ∀ (ts : List ListenEtherTask) (al : AliasState) (sig : Radiosignal),
      (∀ t ∈ ts, (cid, pyInt t.frequencyRecipiency) ∈ m.candPairs) →
      m.countMissing al.visited ≤ n →
      (processListenTasks (addSignalFuel n) m cid ts al sig).isSome = true := by
  intro ts
  induction ts with
  | nil => intro al sig _ _; simp [processListenTasks]
  | cons t rest ih =>
    intro al sig hts hbound
    have hpair : (cid, pyInt t.frequencyRecipiency) ∈ m.candPairs :=
      hts t (List.mem_cons_self _ _)
    have hrest : ∀ u ∈ rest, (cid, pyInt u.frequencyRecipiency) ∈ m.candPairs :=
      fun u hu => hts u (List.mem_cons_of_mem _ hu)
    simp only [processListenTasks]
    rcases hta : t.idAntennaReceiver with _ | a
    · simp only [hta, Option.isSome_some]
    · simp only [hta]
      by_cases hg : (m.canConsumerReceiveSignalByFrequency sig.frequency
          t.frequencyRecipiency &&
          canConsumerReceiveSignalByAntenna sig.idAntennaReceiver a) = true
      · rw [if_pos hg]
        by_cases hmem : ((cid, pyInt t.frequencyRecipiency) ∈ al.visited ∨
            sig ∈ m.dedupBucket cid (pyInt t.frequencyRecipiency))
        · rw [if_pos hmem]
          exact ih _ _ hrest hbound
        · rw [if_neg hmem]
          have hnv : (cid, pyInt t.frequencyRecipiency) ∉ al.visited :=
            fun hx => hmem (Or.inl hx)
          have hlt : m.countMissing (al.visited ++ [(cid, pyInt t.frequencyRecipiency)]) <
              m.countMissing al.visited :=
            countMissing_append_lt m hpair hnv
          rcases hdest : t.idDestinationRelay with _ | destination
          · simp only [hdest]
            exact ih _ _ hrest (Nat.le_of_lt (Nat.lt_of_lt_of_le hlt hbound))
          · simp only [hdest]
            rcases hfr : t.frequencyTransmissionRelay with _ | relayFrequency
            · simp only [hfr, Option.isSome_some]
            · simp only [hfr]
              have hltn : m.countMissing
                  (al.visited ++ [(cid, pyInt t.frequencyRecipiency)]) < n :=
                Nat.lt_of_lt_of_le hlt hbound
              cases hsv : t.saveRelayedSignalsLocallyRelay with
              | true =>
                simp only [hsv, if_true]
                have hsome := hS1
                  (AliasState.mk (al.visited ++ [(cid, pyInt t.frequencyRecipiency)])
                    (al.pending ++ [(cid, pyInt t.frequencyRecipiency)]))
                  { sig with idReceiver := destination, frequency := relayFrequency, idAntennaReceiver := t.idAntennaDestinationRelay } hltn
                cases hres : addSignalFuel n m
                    (AliasState.mk (al.visited ++ [(cid, pyInt t.frequencyRecipiency)])
                      (al.pending ++ [(cid, pyInt t.frequencyRecipiency)]))
                    { sig with idReceiver := destination, frequency := relayFrequency, idAntennaReceiver := t.idAntennaDestinationRelay } with
                | none => rw [hres] at hsome; simp at hsome
                | some x =>
                  cases x with
                  | error e => rfl
                  | ok al3s3 =>
                    obtain ⟨al3, s3⟩ := al3s3
                    have hsub := addSignalFuel_visited_sub n m _ _ _ hres
                    have hb3 : m.countMissing al3.visited ≤ n :=
                      Nat.le_trans (countMissing_mono m hsub) (Nat.le_of_lt hltn)
                    exact ih _ _ hrest hb3
              | false =>
                rw [if_neg (by simp)]
                have hsome := hS1
                  (AliasState.mk (al.visited ++ [(cid, pyInt t.frequencyRecipiency)])
                    al.pending)
                  { sig with idReceiver := destination, frequency := relayFrequency, idAntennaReceiver := t.idAntennaDestinationRelay } hltn
                cases hres : addSignalFuel n m
                    (AliasState.mk (al.visited ++ [(cid, pyInt t.frequencyRecipiency)])
                      al.pending)
                    { sig with idReceiver := destination, frequency := relayFrequency, idAntennaReceiver := t.idAntennaDestinationRelay } with
                | none => rw [hres] at hsome; simp at hsome
                | some x =>
                  cases x with
                  | error e => rfl
                  | ok al3s3 =>
                    obtain ⟨al3, s3⟩ := al3s3
                    have hsub := addSignalFuel_visited_sub n m _ _ _ hres
                    have hb3 : m.countMissing al3.visited ≤ n :=
                      Nat.le_trans (countMissing_mono m hsub) (Nat.le_of_lt hltn)
                    exact ih _ _ hrest hb3
      · rw [if_neg (by simpa using hg)]
        exact ih _ _ hrest hbound

theorem addSignalFuel_isSome :
    ∀ (n : Nat) (m : RadioTransmissionMediumSystem) (al : AliasState) (sig : Radiosignal),
      m.countMissing al.visited < n → (addSignalFuel n m al sig).isSome = true := by
  intro n
  induction n with
  | zero => intro m al sig h; exact absurd h (Nat.not_lt_zero _)
  | succ n ih =>
    intro m al sig h
    simp only [addSignalFuel]
    split
    · rfl
    · rename_i recipient hc
      exact processListenTasks_isSome n m sig.idReceiver (fun al sig h => ih m al sig h)
        recipient.listenEtherTasks al sig
        (fun t ht => mem_candPairs_of_lookupD hc ht)
        (Nat.le_of_lt_succ h)

/-- C1: for every configuration of registered endpoints and active
listen/relay tasks, the recursive deliver operation `add_signal`
terminates: the explicit fuel `countMissing + 1` (one more than the number
of (endpoint, frequency-bucket) dedup buckets not yet visited) always
suffices, because every recursive relay hop first records the live signal
in a fresh dedup bucket.  In particular, for two endpoints each configured
to relay to the other on mutually matching frequencies, the cascade stops
when the signal object comes back to the first (endpoint, bucket): the
object is found in that dedup cache (it is structurally equal to itself)
and dropped instead of being relayed again, so each of the two buckets is
recorded exactly once and the call returns normally. -/
theorem addSignal_terminates :
    (∀ (m : RadioTransmissionMediumSystem) (al : AliasState) (sig : Radiosignal),
      (addSignalFuel (m.countMissing al.visited + 1) m al sig).isSome = true)
    ∧ twoRelayMedium.addSignal {} twoRelaySignal =
        Except.ok ({ visited := [(1, 100), (2, 100)], pending := [] },
          { idTransmitter := 0, idReceiver := 1, memory := sampleMemory,
            frequency := 100, idAntennaReceiver := some 1 }) :=
  ⟨fun m al sig => addSignalFuel_isSome _ m al sig (Nat.lt_succ_self _), by decide⟩

theorem processListenTasks_no_match
    (rec : RadioTransmissionMediumSystem → AliasState → Radiosignal →
      Option (Except String (AliasState × Radiosignal)))
    (m : RadioTransmissionMediumSystem) (cid : Int) :
    ∀ (ts : List ListenEtherTask) (al : AliasState) (sig : Radiosignal),
      (∀ t ∈ ts, t.idAntennaReceiver ≠ none) →
      (∀ t ∈ ts, ¬(|sig.frequency - t.frequencyRecipiency| < m.frequencyAccuracy)) →
      processListenTasks rec m cid ts al sig = some (Except.ok (al, sig)) := by
  intro ts
  induction ts with
  | nil => intro al sig _ _; simp [processListenTasks]
  | cons t rest ih =>
    intro al sig hant hfar
    simp only [processListenTasks]
    rcases hta : t.idAntennaReceiver with _ | a
    · exact absurd hta (hant t (List.mem_cons_self _ _))
    · simp only [hta]
      have hfreq : m.canConsumerReceiveSignalByFrequency sig.frequency
          t.frequencyRecipiency = false := by
        simp only [RadioTransmissionMediumSystem.canConsumerReceiveSignalByFrequency,
          decide_eq_false_iff_not]
        exact hfar t (List.mem_cons_self _ _)
      rw [hfreq]
      simp only [Bool.false_and, Bool.false_eq_true, if_false]
      exact ih al sig (fun u hu => hant u (List.mem_cons_of_mem _ hu))
        (fun u hu => hfar u (List.mem_cons_of_mem _ hu))

/-- C2: the frequency-match test of the medium succeeds exactly when the
absolute difference of the signal frequency and the task's listening
frequency is strictly below the accuracy; at a difference of exactly the
accuracy it fails, and a signal all of whose receiver-endpoint tasks sit
exactly at the accuracy boundary is delivered to none of them (the
delivery call returns with the alias bookkeeping unchanged). -/
theorem frequency_match_strict_iff :
    (∀ (m : RadioTransmissionMediumSystem) (sf rf : ℚ),
      m.canConsumerReceiveSignalByFrequency sf rf = true ↔ |sf - rf| < m.frequencyAccuracy)
    ∧ (∀ (m : RadioTransmissionMediumSystem) (sf rf : ℚ),
        |sf - rf| = m.frequencyAccuracy →
        m.canConsumerReceiveSignalByFrequency sf rf = false)
    ∧ (∀ (m : RadioTransmissionMediumSystem) (al : AliasState) (sig : Radiosignal)
        (c : RadioTransmissionMediumConsumer),
        lookupD m.consumers sig.idReceiver = some c →
        (∀ t ∈ c.listenEtherTasks, t.idAntennaReceiver ≠ none) →
        (∀ t ∈ c.listenEtherTasks,
          |sig.frequency - t.frequencyRecipiency| = m.frequencyAccuracy) →
        m.addSignal al sig = Except.ok (al, sig)) := by
  refine ⟨?_, ?_, ?_⟩
  · intro m sf rf
    simp [RadioTransmissionMediumSystem.canConsumerReceiveSignalByFrequency]
  · intro m sf rf h
    simp only [RadioTransmissionMediumSystem.canConsumerReceiveSignalByFrequency,
      decide_eq_false_iff_not, not_lt, h, le_refl]
  · intro m al sig c hc hant hb
    have hfar : ∀ t ∈ c.listenEtherTasks,
        ¬(|sig.frequency - t.frequencyRecipiency| < m.frequencyAccuracy) :=
      fun t ht => by rw [hb t ht]; exact lt_irrefl _
    unfold RadioTransmissionMediumSystem.addSignal
    simp only [addSignalFuel, hc]
    rw [processListenTasks_no_match _ m _ c.listenEtherTasks al sig hant hfar]
    rfl

/-- Witness for C2 at accuracy 10: frequencies 100 and 110 are exactly at
the boundary, the match test fails, and the delivery to an endpoint whose
single task listens at 110 delivers nothing. -/
theorem frequency_match_strict_iff_witness :
    boundaryMedium.canConsumerReceiveSignalByFrequency 100 110 = false
    ∧ boundaryMedium.addSignal {} boundarySignal = Except.ok ({}, boundarySignal) :=
  ⟨frequency_match_strict_iff.2.1 boundaryMedium 100 110 (by decide),
   frequency_match_strict_iff.2.2 boundaryMedium {} boundarySignal boundaryConsumer
     (by decide) (by decide) (by decide)⟩

theorem processListenTasks_mono
    (rec rec' : RadioTransmissionMediumSystem → AliasState → Radiosignal →
      Option (Except String (AliasState × Radiosignal)))
    (m : RadioTransmissionMediumSystem) (cid : Int)
    (hrr : ∀ al sig r, rec m al sig = some r → rec' m al sig = some r) :
    ∀ (ts : List ListenEtherTask) (al : AliasState) (sig : Radiosignal) r,
      processListenTasks rec m cid ts al sig = some r →
      processListenTasks rec' m cid ts al sig = some r := by
  intro ts
  induction ts with
  | nil => intro al sig r h; exact h
  | cons t rest ih =>
    intro al sig r h
    simp only [processListenTasks] at h ⊢
    rcases hta : t.idAntennaReceiver with _ | a
    · simp only [hta] at h ⊢; exact h
    · simp only [hta] at h ⊢
      by_cases hg : (m.canConsumerReceiveSignalByFrequency sig.frequency
          t.frequencyRecipiency &&
          canConsumerReceiveSignalByAntenna sig.idAntennaReceiver a) = true
      · rw [if_pos hg] at h ⊢
        by_cases hmem : ((cid, pyInt t.frequencyRecipiency) ∈ al.visited ∨
            sig ∈ m.dedupBucket cid (pyInt t.frequencyRecipiency))
        · rw [if_pos hmem] at h ⊢
          exact ih _ _ _ h
        · rw [if_neg hmem] at h ⊢
          rcases hdest : t.idDestinationRelay with _ | destination
          · simp only [hdest] at h ⊢
            exact ih _ _ _ h
          · simp only [hdest] at h ⊢
            rcases hfr : t.frequencyTransmissionRelay with _ | relayFrequency
            · simp only [hfr] at h ⊢; exact h
            · simp only [hfr] at h ⊢
              cases hres : rec m
                  (if t.saveRelayedSignalsLocallyRelay then
                    AliasState.mk (al.visited ++ [(cid, pyInt t.frequencyRecipiency)])
                      (al.pending ++ [(cid, pyInt t.frequencyRecipiency)])
                  else AliasState.mk (al.visited ++ [(cid, pyInt t.frequencyRecipiency)])
                      al.pending)
                  { sig with idReceiver := destination, frequency := relayFrequency, idAntennaReceiver := t.idAntennaDestinationRelay } with
              | none => rw [hres] at h; simp at h
              | some x =>
                rw [hres] at h
                rw [hrr _ _ _ hres]
                cases x with
                | error e => exact h
                | ok al3s3 =>
                  obtain ⟨al3, s3⟩ := al3s3
                  exact ih _ _ _ h
      · rw [if_neg (by simpa using hg)] at h ⊢
        exact ih _ _ _ h

theorem addSignalFuel_mono :
    ∀ (n : Nat) (m : RadioTransmissionMediumSystem) (al : AliasState) (sig : Radiosignal) r,
      addSignalFuel n m al sig = some r → addSignalFuel (n + 1) m al sig = some r := by
  intro n
  induction n with
  | zero => intro m al sig r h; simp [addSignalFuel] at h
  | succ n ih =>
    intro m al sig r h
    simp only [addSignalFuel] at h ⊢
    rcases hc : lookupD m.consumers sig.idReceiver with _ | recipient
    · simp only [hc] at h ⊢; exact h
    · simp only [hc] at h ⊢
      exact processListenTasks_mono _ _ m _ (fun al sig r h => ih m al sig r h) _ _ _ _ h

theorem addSignalFuel_le_mono {n k : Nat} (hnk : n ≤ k)
    {m : RadioTransmissionMediumSystem} {al : AliasState} {sig : Radiosignal}
    {r : Except String (AliasState × Radiosignal)}
    (h : addSignalFuel n m al sig = some r) : addSignalFuel k m al sig = some r := by
  induction k with
  | zero =>
    obtain rfl : n = 0 := Nat.le_zero.mp hnk
    exact h
  | succ k ih =>
    rcases Nat.lt_or_ge n (k + 1) with hlt | hge
    · exact addSignalFuel_mono k m al sig r (ih (Nat.le_of_lt_succ hlt))
    · obtain rfl : n = k + 1 := Nat.le_antisymm hnk hge
      exact h

theorem addSignal_eq_of_fuel {K : Nat} {m : RadioTransmissionMediumSystem}
    {al : AliasState} {sig : Radiosignal} {r : Except String (AliasState × Radiosignal)}
    (h : addSignalFuel K m al sig = some r) : m.addSignal al sig = r := by
  have hs := addSignalFuel_isSome (m.countMissing al.visited + 1) m al sig (Nat.lt_succ_self _)
  rcases hF : addSignalFuel (m.countMissing al.visited + 1) m al sig with _ | r'
  · rw [hF] at hs; simp at hs
  · have h1 := addSignalFuel_le_mono (Nat.le_max_left K (m.countMissing al.visited + 1)) h
    have h2 := addSignalFuel_le_mono
      (Nat.le_max_right K (m.countMissing al.visited + 1)) hF
    rw [h1] at h2
    obtain rfl : r = r' := by injection h2
    unfold RadioTransmissionMediumSystem.addSignal
    rw [hF]
    rfl

theorem deliverSignal_eq_of_fuel {K : Nat} {m : RadioTransmissionMediumSystem}
    {sig : Radiosignal} {al : AliasState} {fin : Radiosignal}
    (h : addSignalFuel K m {} sig = some (Except.ok (al, fin))) :
    m.deliverSignal sig = Except.ok (m.resolveAlias al fin) := by
  unfold RadioTransmissionMediumSystem.deliverSignal
  rw [addSignal_eq_of_fuel h]

/-- Counterexample to C5: both listen tasks of `fanoutConsumer` (100.2 and
100.7, same antenna) match the 100.5 signal, yet the inbox bucket 100
receives the signal only once: the second matching task is suppressed by
the per-(endpoint, bucket) dedup cache because both frequencies truncate
to the same bucket, so the dedup is not applied independently per task. -/
theorem fanout_same_bucket_suppressed_counterexample :
    fanoutMedium.canConsumerReceiveSignalByFrequency fanoutSignal.frequency (1002/10) = true
    ∧ fanoutMedium.canConsumerReceiveSignalByFrequency fanoutSignal.frequency (1007/10) = true
    ∧ canConsumerReceiveSignalByAntenna fanoutSignal.idAntennaReceiver 1 = true
    ∧ pyInt (1002/10) = 100 ∧ pyInt (1007/10) = 100
    ∧ (fanoutMedium.deliverSignal fanoutSignal).map
        (fun m' => (lookupD m'.consumers 1).map
          (fun c => ((lookupD c.dictFrequencySignalToReceive 100).getD []).length))
      = Except.ok (some 1) := by decide

/-- C5 amended: when one signal matches several listen tasks of the same
endpoint in one tick (frequency and antenna matching for each task), it is
delivered once per distinct frequency bucket of the matching (non-relay)
tasks; a later matching task whose (endpoint, bucket) dedup list already
holds the signal is suppressed rather than delivered a second time. -/
theorem fanout_per_bucket_delivery (cid tr a : Int) (f0 acc sf f1 f2 : ℚ)
    (mem : MemoryBlock) (h1 : |sf - f1| < acc) (h2 : |sf - f2| < acc) :
    (pyInt f1 ≠ pyInt f2 →
      RadioTransmissionMediumSystem.deliverSignal
        (singleConsumerMedium cid f0 acc
          [{ frequencyRecipiency := f1, idAntennaReceiver := some a }, { frequencyRecipiency := f2, idAntennaReceiver := some a }])
        { idTransmitter := tr, idReceiver := cid, memory := mem, frequency := sf, idAntennaReceiver := some a }
      = Except.ok (singleConsumerMediumAfter cid f0 acc
          [{ frequencyRecipiency := f1, idAntennaReceiver := some a }, { frequencyRecipiency := f2, idAntennaReceiver := some a }]
          [(pyInt f1, [{ idTransmitter := tr, idReceiver := cid, memory := mem, frequency := sf, idAntennaReceiver := some a }]), (pyInt f2, [{ idTransmitter := tr, idReceiver := cid, memory := mem, frequency := sf, idAntennaReceiver := some a }])]
          [(pyInt f1, [{ idTransmitter := tr, idReceiver := cid, memory := mem, frequency := sf, idAntennaReceiver := some a }]), (pyInt f2, [{ idTransmitter := tr, idReceiver := cid, memory := mem, frequency := sf, idAntennaReceiver := some a }])]))
    ∧ (pyInt f1 = pyInt f2 →
      RadioTransmissionMediumSystem.deliverSignal
        (singleConsumerMedium cid f0 acc
          [{ frequencyRecipiency := f1, idAntennaReceiver := some a }, { frequencyRecipiency := f2, idAntennaReceiver := some a }])
        { idTransmitter := tr, idReceiver := cid, memory := mem, frequency := sf, idAntennaReceiver := some a }
      = Except.ok (singleConsumerMediumAfter cid f0 acc
          [{ frequencyRecipiency := f1, idAntennaReceiver := some a }, { frequencyRecipiency := f2, idAntennaReceiver := some a }]
          [(pyInt f1, [{ idTransmitter := tr, idReceiver := cid, memory := mem, frequency := sf, idAntennaReceiver := some a }])]
          [(pyInt f1, [{ idTransmitter := tr, idReceiver := cid, memory := mem, frequency := sf, idAntennaReceiver := some a }])])) := by
  constructor
  · intro hk
    have hrun : addSignalFuel (Nat.succ 0)
        (singleConsumerMedium cid f0 acc
          [{ frequencyRecipiency := f1, idAntennaReceiver := some a }, { frequencyRecipiency := f2, idAntennaReceiver := some a }])
        {} { idTransmitter := tr, idReceiver := cid, memory := mem, frequency := sf, idAntennaReceiver := some a }
        = some (Except.ok
            ({ visited := [(cid, pyInt f1), (cid, pyInt f2)], pending := [(cid, pyInt f1), (cid, pyInt f2)] },
             { idTransmitter := tr, idReceiver := cid, memory := mem, frequency := sf, idAntennaReceiver := some a })) := by
      simp [addSignalFuel, processListenTasks, singleConsumerMedium, singleConsumer,
        lookupD, RadioTransmissionMediumSystem.dedupBucket,
        RadioTransmissionMediumSystem.canConsumerReceiveSignalByFrequency,
        canConsumerReceiveSignalByAntenna, h1, h2, hk, Ne.symm hk]
    have hdel := deliverSignal_eq_of_fuel hrun
    rw [hdel]
    simp [RadioTransmissionMediumSystem.resolveAlias, singleConsumerMedium,
      singleConsumer, singleConsumerMediumAfter, updateD, insertAppend, hk, Ne.symm hk]
  · intro hk
    have hrun : addSignalFuel (Nat.succ 0)
        (singleConsumerMedium cid f0 acc
          [{ frequencyRecipiency := f1, idAntennaReceiver := some a }, { frequencyRecipiency := f2, idAntennaReceiver := some a }])
        {} { idTransmitter := tr, idReceiver := cid, memory := mem, frequency := sf, idAntennaReceiver := some a }
        = some (Except.ok
            ({ visited := [(cid, pyInt f1)], pending := [(cid, pyInt f1)] },
             { idTransmitter := tr, idReceiver := cid, memory := mem, frequency := sf, idAntennaReceiver := some a })) := by
      simp [addSignalFuel, processListenTasks, singleConsumerMedium, singleConsumer,
        lookupD, RadioTransmissionMediumSystem.dedupBucket,
        RadioTransmissionMediumSystem.canConsumerReceiveSignalByFrequency,
        canConsumerReceiveSignalByAntenna, h1, h2, hk]
    have hdel := deliverSignal_eq_of_fuel hrun
    rw [hdel]
    simp [RadioTransmissionMediumSystem.resolveAlias, singleConsumerMedium,
      singleConsumer, singleConsumerMediumAfter, updateD, insertAppend]

/-- Witness for the amended C5 fan-out statement: distinct buckets 100 and
101 both receive the matching signal; equal buckets deliver it once. -/
theorem fanout_per_bucket_delivery_witness :
    RadioTransmissionMediumSystem.deliverSignal
      (singleConsumerMedium 1 100 10
        [{ frequencyRecipiency := 1002/10, idAntennaReceiver := some 1 }, { frequencyRecipiency := 1015/10, idAntennaReceiver := some 1 }])
      { idTransmitter := 0, idReceiver := 1, memory := sampleMemory, frequency := 1009/10, idAntennaReceiver := some 1 }
    = Except.ok (singleConsumerMediumAfter 1 100 10
        [{ frequencyRecipiency := 1002/10, idAntennaReceiver := some 1 }, { frequencyRecipiency := 1015/10, idAntennaReceiver := some 1 }]
        [(pyInt (1002/10), [{ idTransmitter := 0, idReceiver := 1, memory := sampleMemory, frequency := 1009/10, idAntennaReceiver := some 1 }]), (pyInt (1015/10), [{ idTransmitter := 0, idReceiver := 1, memory := sampleMemory, frequency := 1009/10, idAntennaReceiver := some 1 }])]
        [(pyInt (1002/10), [{ idTransmitter := 0, idReceiver := 1, memory := sampleMemory, frequency := 1009/10, idAntennaReceiver := some 1 }]), (pyInt (1015/10), [{ idTransmitter := 0, idReceiver := 1, memory := sampleMemory, frequency := 1009/10, idAntennaReceiver := some 1 }])])
    ∧ RadioTransmissionMediumSystem.deliverSignal
      (singleConsumerMedium 1 100 10
        [{ frequencyRecipiency := 1002/10, idAntennaReceiver := some 1 }, { frequencyRecipiency := 1007/10, idAntennaReceiver := some 1 }])
      { idTransmitter := 0, idReceiver := 1, memory := sampleMemory, frequency := 201/2, idAntennaReceiver := some 1 }
    = Except.ok (singleConsumerMediumAfter 1 100 10
        [{ frequencyRecipiency := 1002/10, idAntennaReceiver := some 1 }, { frequencyRecipiency := 1007/10, idAntennaReceiver := some 1 }]
        [(pyInt (1002/10), [{ idTransmitter := 0, idReceiver := 1, memory := sampleMemory, frequency := 201/2, idAntennaReceiver := some 1 }])]
        [(pyInt (1002/10), [{ idTransmitter := 0, idReceiver := 1, memory := sampleMemory, frequency := 201/2, idAntennaReceiver := some 1 }])]) :=
  ⟨(fanout_per_bucket_delivery 1 0 1 100 10 (1009/10) (1002/10) (1015/10) sampleMemory
      (by decide) (by decide)).1 (by decide),
   (fanout_per_bucket_delivery 1 0 1 100 10 (201/2) (1002/10) (1007/10) sampleMemory
      (by decide) (by decide)).2 (by decide)⟩

/-- Counterexample to C6: for the keep-local-copy relay task of
`relayCopyConsumer` (listen at 100 on antenna 1, relay to the unregistered
endpoint 2 at 150 on antenna 2), the entry deposited into the relaying
endpoint's inbox bucket 100 does NOT keep the pre-relay field values: it
is an alias of the mutated signal object and ends up with the post-relay
receiver id 2, frequency 150 and antenna id 2. -/
theorem relay_local_copy_mutated_counterexample :
    (relayCopyMedium.deliverSignal relayCopySignal).map (fun m' =>
      (lookupD m'.consumers 1).map (fun c => lookupD c.dictFrequencySignalToReceive 100))
    = Except.ok (some (some [{ idTransmitter := 0, idReceiver := 2, memory := sampleMemory, frequency := 150, idAntennaReceiver := some 2 }]))
    ∧ ¬ ((relayCopyMedium.deliverSignal relayCopySignal).map (fun m' =>
      (lookupD m'.consumers 1).map (fun c => lookupD c.dictFrequencySignalToReceive 100))
    = Except.ok (some (some [relayCopySignal]))) := by decide

/-- C6 amended: when a relay task with `keep_local_copy_on_relay = true`
matches a signal, the signal object is deposited into the relaying
endpoint's inbox at the listening-frequency bucket before its fields are
rewritten, but the deposit is an alias of the one mutated signal object,
so after the call the deposited inbox entry carries the post-relay
receiver id, frequency and antenna id of the relay destination, not the
pre-relay values. -/
theorem relay_local_copy_post_relay_values (cid tr a dest : Int) (f0 acc sf fIn fOut : ℚ)
    (destAnt : Option Int) (mem : MemoryBlock)
    (hmatch : |sf - fIn| < acc) (hne : dest ≠ cid) :
    RadioTransmissionMediumSystem.deliverSignal
      (singleConsumerMedium cid f0 acc
        [{ frequencyRecipiency := fIn, idAntennaReceiver := some a, frequencyTransmissionRelay := some fOut, idDestinationRelay := some dest, idAntennaDestinationRelay := destAnt, saveRelayedSignalsLocallyRelay := true }])
      { idTransmitter := tr, idReceiver := cid, memory := mem, frequency := sf, idAntennaReceiver := some a }
    = Except.ok (singleConsumerMediumAfter cid f0 acc
        [{ frequencyRecipiency := fIn, idAntennaReceiver := some a, frequencyTransmissionRelay := some fOut, idDestinationRelay := some dest, idAntennaDestinationRelay := destAnt, saveRelayedSignalsLocallyRelay := true }]
        [(pyInt fIn, [{ idTransmitter := tr, idReceiver := dest, memory := mem, frequency := fOut, idAntennaReceiver := destAnt }])]
        [(pyInt fIn, [{ idTransmitter := tr, idReceiver := dest, memory := mem, frequency := fOut, idAntennaReceiver := destAnt }])]) := by
  have hrun : addSignalFuel (Nat.succ (Nat.succ 0))
      (singleConsumerMedium cid f0 acc
        [{ frequencyRecipiency := fIn, idAntennaReceiver := some a, frequencyTransmissionRelay := some fOut, idDestinationRelay := some dest, idAntennaDestinationRelay := destAnt, saveRelayedSignalsLocallyRelay := true }])
      {} { idTransmitter := tr, idReceiver := cid, memory := mem, frequency := sf, idAntennaReceiver := some a }
      = some (Except.ok
          ({ visited := [(cid, pyInt fIn)], pending := [(cid, pyInt fIn)] },
           { idTransmitter := tr, idReceiver := dest, memory := mem, frequency := fOut, idAntennaReceiver := destAnt })) := by
    simp [addSignalFuel, processListenTasks, singleConsumerMedium, singleConsumer,
      lookupD, RadioTransmissionMediumSystem.dedupBucket,
      RadioTransmissionMediumSystem.canConsumerReceiveSignalByFrequency,
      canConsumerReceiveSignalByAntenna, hmatch, hne, Ne.symm hne]
  have hdel := deliverSignal_eq_of_fuel hrun
  rw [hdel]
  simp [RadioTransmissionMediumSystem.resolveAlias, singleConsumerMedium,
    singleConsumer, singleConsumerMediumAfter, updateD, insertAppend]

/-- Witness for the amended C6 statement at the concrete keep-local-copy
relay scenario (listen at 100, relay to endpoint 2 at 150, antenna 2). -/
theorem relay_local_copy_post_relay_values_witness :
    RadioTransmissionMediumSystem.deliverSignal
      (singleConsumerMedium 1 100 10
        [{ frequencyRecipiency := 100, idAntennaReceiver := some 1, frequencyTransmissionRelay := some 150, idDestinationRelay := some 2, idAntennaDestinationRelay := some 2, saveRelayedSignalsLocallyRelay := true }])
      { idTransmitter := 0, idReceiver := 1, memory := sampleMemory, frequency := 100, idAntennaReceiver := some 1 }
    = Except.ok (singleConsumerMediumAfter 1 100 10
        [{ frequencyRecipiency := 100, idAntennaReceiver := some 1, frequencyTransmissionRelay := some 150, idDestinationRelay := some 2, idAntennaDestinationRelay := some 2, saveRelayedSignalsLocallyRelay := true }]
        [(pyInt 100, [{ idTransmitter := 0, idReceiver := 2, memory := sampleMemory, frequency := 150, idAntennaReceiver := some 2 }])]
        [(pyInt 100, [{ idTransmitter := 0, idReceiver := 2, memory := sampleMemory, frequency := 150, idAntennaReceiver := some 2 }])]) :=
  relay_local_copy_post_relay_values 1 0 1 2 100 10 100 100 150 (some 2) sampleMemory
    (by decide) (by decide)

/-- Counterexample to C7: calling the global consumer's `i_am_repeater`
twice with identical arguments returns `True` both times and appends the
identical relay task twice; there is no duplicate check, unlike
`listen_ether`.  (The claim says both registration operations return
`false` when an identical task already exists this tick.) -/
theorem repeater_task_duplicate_counterexample :
    (plainConsumer.iAmRepeater 2 1).1 = true
    ∧ ((plainConsumer.iAmRepeater 2 1).2.iAmRepeater 2 1).1 = true
    ∧ ((plainConsumer.iAmRepeater 2 1).2.iAmRepeater 2 1).2.listenEtherTasks
      = [{ frequencyRecipiency := 100, idAntennaReceiver := some 1, frequencyTransmissionRelay := some 100, idDestinationRelay := some 2, idAntennaDestinationRelay := none, saveRelayedSignalsLocallyRelay := false },
         { frequencyRecipiency := 100, idAntennaReceiver := some 1, frequencyTransmissionRelay := some 100, idDestinationRelay := some 2, idAntennaDestinationRelay := none, saveRelayedSignalsLocallyRelay := false }] := by
  decide

/-- C7 amended: the global endpoint's `listen_ether` appends its listen
task only if no identical task is active this tick and returns whether a
new task was added; `i_am_repeater`, by contrast, performs no duplicate
check: whenever the relay destination differs from the endpoint's own id
it appends its relay task unconditionally (even when an identical task
already exists) and returns `True`. -/
theorem listen_dedup_and_repeater_always_appends :
    (∀ (c : RadioTransmissionMediumConsumer) (a : Int) (f : Option ℚ),
      ({ frequencyRecipiency := pyOrFrequency f c.properties.frequency, idAntennaReceiver := some a } : ListenEtherTask) ∈ c.listenEtherTasks →
      c.listenEther a f = (false, c))
    ∧ (∀ (c : RadioTransmissionMediumConsumer) (a : Int) (f : Option ℚ),
      ({ frequencyRecipiency := pyOrFrequency f c.properties.frequency, idAntennaReceiver := some a } : ListenEtherTask) ∉ c.listenEtherTasks →
      c.listenEther a f = (true, { c with listenEtherTasks := c.listenEtherTasks ++ [{ frequencyRecipiency := pyOrFrequency f c.properties.frequency, idAntennaReceiver := some a }] }))
    ∧ (∀ (c : RadioTransmissionMediumConsumer) (dest a : Int) (destAnt : Option Int)
        (fr ft : Option ℚ) (sv : Bool),
      c.properties.idConsumer ≠ dest →
      c.iAmRepeater dest a destAnt fr ft sv
        = (true, { c with listenEtherTasks := c.listenEtherTasks ++ [{ frequencyRecipiency := pyOrFrequency fr c.properties.frequency, idAntennaReceiver := some a, frequencyTransmissionRelay := some (pyOrFrequency ft c.properties.frequency), idDestinationRelay := some dest, idAntennaDestinationRelay := destAnt, saveRelayedSignalsLocallyRelay := sv }] })) := by
  refine ⟨?_, ?_, ?_⟩
  · intro c a f h
    simp [RadioTransmissionMediumConsumer.listenEther, h]
  · intro c a f h
    simp [RadioTransmissionMediumConsumer.listenEther, h]
  · intro c dest a destAnt fr ft sv h
    simp [RadioTransmissionMediumConsumer.iAmRepeater, h]

/-- Witness for the amended C7 statement: a first `listen_ether` adds its
task and returns `True`, the identical second one returns `False` and
leaves the consumer unchanged, while a second identical `i_am_repeater`
still appends and returns `True`. -/
theorem listen_dedup_and_repeater_always_appends_witness :
    plainConsumer.listenEther 1 none
      = (true, { plainConsumer with listenEtherTasks := plainConsumer.listenEtherTasks ++ [{ frequencyRecipiency := pyOrFrequency none plainConsumer.properties.frequency, idAntennaReceiver := some 1 }] })
    ∧ (plainConsumer.listenEther 1 none).2.listenEther 1 none
      = (false, (plainConsumer.listenEther 1 none).2)
    ∧ (plainConsumer.iAmRepeater 2 1).2.iAmRepeater 2 1
      = (true, { (plainConsumer.iAmRepeater 2 1).2 with listenEtherTasks := (plainConsumer.iAmRepeater 2 1).2.listenEtherTasks ++ [{ frequencyRecipiency := pyOrFrequency none (plainConsumer.iAmRepeater 2 1).2.properties.frequency, idAntennaReceiver := some 1, frequencyTransmissionRelay := some (pyOrFrequency none (plainConsumer.iAmRepeater 2 1).2.properties.frequency), idDestinationRelay := some 2, idAntennaDestinationRelay := none, saveRelayedSignalsLocallyRelay := false }] }) :=
  ⟨listen_dedup_and_repeater_always_appends.2.1 plainConsumer 1 none (by decide),
   listen_dedup_and_repeater_always_appends.1 _ 1 none (by decide),
   listen_dedup_and_repeater_always_appends.2.2 _ 2 1 none none none false (by decide)⟩

/-- Counterexample to C10: a consumer whose own default frequency is 0 can
send a signal at carrier frequency exactly 0 (the falsy argument is
replaced by the falsy default), so the claim's conclusion that no signal
can ever be sent at frequency 0 fails for such a consumer. -/
theorem zero_frequency_default_zero_counterexample :
    (zeroFrequencyConsumer.sendSignal 2 sampleMemory (some 0) none).1 = true
    ∧ (zeroFrequencyConsumer.sendSignal 2 sampleMemory (some 0) none).2.dictIdReceiverSignalsToSend
      = [(2, [{ idTransmitter := 1, idReceiver := 2, memory := sampleMemory, frequency := 0, idAntennaReceiver := none }])] := by
  decide

/-- C10 amended: at the global consumer interface a frequency argument of
0 is indistinguishable from an omitted one for `send_signal`,
`receive_signal` and `listen_ether` (both are falsy and replaced by the
consumer's default frequency); consequently, provided the consumer's own
default frequency is nonzero, every staged signal carries a nonzero
carrier frequency. -/
theorem falsy_frequency_substitution :
    (∀ (c : RadioTransmissionMediumConsumer) (idReceiver : Int) (mem : MemoryBlock)
        (antR : Option Int),
      c.sendSignal idReceiver mem (some 0) antR = c.sendSignal idReceiver mem none antR)
    ∧ (∀ c : RadioTransmissionMediumConsumer,
      c.receiveSignal (some 0) = c.receiveSignal none)
    ∧ (∀ (c : RadioTransmissionMediumConsumer) (a : Int),
      c.listenEther a (some 0) = c.listenEther a none)
    ∧ (∀ (c : RadioTransmissionMediumConsumer) (idReceiver : Int) (mem : MemoryBlock)
        (f : Option ℚ) (antR : Option Int),
      c.properties.frequency ≠ 0 → c.properties.idConsumer ≠ idReceiver →
      (c.sendSignal idReceiver mem f antR).2.dictIdReceiverSignalsToSend
        = insertAppend c.dictIdReceiverSignalsToSend idReceiver { idTransmitter := c.properties.idConsumer, idReceiver := idReceiver, memory := mem, frequency := pyOrFrequency f c.properties.frequency, idAntennaReceiver := antR }
      ∧ pyOrFrequency f c.properties.frequency ≠ 0) := by
  refine ⟨?_, ?_, ?_, ?_⟩
  · intro c idReceiver mem antR
    simp [RadioTransmissionMediumConsumer.sendSignal, pyOrFrequency]
  · intro c
    simp [RadioTransmissionMediumConsumer.receiveSignal, pyOrFrequency]
  · intro c a
    simp [RadioTransmissionMediumConsumer.listenEther, pyOrFrequency]
  · intro c idReceiver mem f antR h0 hne
    constructor
    · simp [RadioTransmissionMediumConsumer.sendSignal, hne]
    · match f with
      | none => exact h0
      | some v =>
        by_cases hv : v = 0
        · simp [pyOrFrequency, hv, h0]
        · simp [pyOrFrequency, hv]

/-- Witness for the amended C10 statement: for the consumer with default
frequency 100, sending with the falsy argument 0 stages a signal at the
nonzero default frequency. -/
theorem falsy_frequency_substitution_witness :
    (plainConsumer.sendSignal 2 sampleMemory (some 0) none).2.dictIdReceiverSignalsToSend
      = insertAppend plainConsumer.dictIdReceiverSignalsToSend 2 { idTransmitter := plainConsumer.properties.idConsumer, idReceiver := 2, memory := sampleMemory, frequency := pyOrFrequency (some 0) plainConsumer.properties.frequency, idAntennaReceiver := none }
    ∧ pyOrFrequency (some 0) plainConsumer.properties.frequency ≠ 0 :=
  falsy_frequency_substitution.2.2.2 plainConsumer 2 sampleMemory (some 0) none
    (by decide) (by decide)

theorem lookupD_updateD_self {α : Type} (l : List (Int × α)) (k : Int) (f : α → α) :
    lookupD (updateD l k f) k = (lookupD l k).map f := by
  induction l with
  | nil => simp [lookupD, updateD]
  | cons p t ih =>
    obtain ⟨k', v⟩ := p
    by_cases hk : k' = k
    · subst hk
      simp [lookupD, updateD]
    · simp [lookupD, updateD, hk, ih]

theorem lookupD_updateD_other {α : Type} (l : List (Int × α)) {k k' : Int} (f : α → α)
    (h : k' ≠ k) : lookupD (updateD l k f) k' = lookupD l k' := by
  induction l with
  | nil => simp [lookupD, updateD]
  | cons p t ih =>
    obtain ⟨k0, v⟩ := p
    by_cases hk : k0 = k
    · subst hk
      simp [lookupD, updateD, Ne.symm h, ih]
    · simp only [updateD, if_neg hk, lookupD]
      by_cases hk' : k0 = k'
      · simp [hk']
      · simp [hk', ih]

theorem lookupD_insertAppend_self {α : Type} (l : List (Int × List α)) (k : Int) (x : α) :
    lookupD (insertAppend l k x) k = some ((lookupD l k).getD [] ++ [x]) := by
  induction l with
  | nil => simp [lookupD, insertAppend]
  | cons p t ih =>
    obtain ⟨k', v⟩ := p
    by_cases hk : k' = k
    · subst hk
      simp [lookupD, insertAppend]
    · simp [lookupD, insertAppend, hk, ih]

theorem lookupD_insertAppend_other {α : Type} (l : List (Int × List α)) {k k' : Int}
    (x : α) (h : k' ≠ k) : lookupD (insertAppend l k x) k' = lookupD l k' := by
  induction l with
  | nil => simp [lookupD, insertAppend, Ne.symm h]
  | cons p t ih =>
    obtain ⟨k0, v⟩ := p
    by_cases hk : k0 = k
    · subst hk
      simp [lookupD, insertAppend, Ne.symm h]
    · simp only [insertAppend, if_neg hk, lookupD]
      by_cases hk' : k0 = k'
      · simp [hk']
      · simp [hk', ih]

theorem setFrequency_ok {d : TransmitReceiveDevice} {f : ℚ} {d' : TransmitReceiveDevice}
    (h : d.setFrequency f = Except.ok d') :
    d' = { d with frequency := f } ∧ d.properties.frequencyRangeMin ≤ f ∧
      f ≤ d.properties.frequencyRangeMax := by
  unfold TransmitReceiveDevice.setFrequency at h
  split at h
  · simp at h
  · split at h
    · simp at h
    · rename_i h1 h2
      refine ⟨?_, le_of_not_lt h1, le_of_not_lt h2⟩
      injection h with h
      exact h.symm

theorem setFrequency_error {d : TransmitReceiveDevice} {f : ℚ} :
    (∃ e, d.setFrequency f = Except.error e) ↔
      (f < d.properties.frequencyRangeMin ∨ f > d.properties.frequencyRangeMax) := by
  unfold TransmitReceiveDevice.setFrequency
  constructor
  · intro ⟨e, h⟩
    split at h
    · rename_i h1; exact Or.inl h1
    · split at h
      · rename_i h2; exact Or.inr h2
      · simp at h
  · intro h
    rcases h with h1 | h2
    · exact ⟨"Must be: frequency >= frequency_range_min.", by rw [if_pos h1]⟩
    · by_cases h1 : f < d.properties.frequencyRangeMin
      · exact ⟨"Must be: frequency >= frequency_range_min.", by rw [if_pos h1]⟩
      · exact ⟨"Must be: frequency <= frequency_range_max.", by rw [if_neg h1, if_pos h2]⟩

theorem assignDeviceAsTransmitter_ok {ls : RadiotransmissionSystem} {mb : MemoryBlock}
    {ia ir : Int} {f : Option ℚ} {ar : Option Int} {b : Bool}
    {ls' : RadiotransmissionSystem}
    (h : ls.assignDeviceAsTransmitter mb ia ir f ar = Except.ok (b, ls')) :
    b = false ∧
    ∃ antenna antenna2 : TransmitReceiveDevice,
      lookupD ls.antennas ia = some antenna
      ∧ antenna2.idAntenna = antenna.idAntenna
      ∧ antenna2.properties = antenna.properties
      ∧ antenna2.communicationMode = CommunicationModeType.TRANSMISSION
      ∧ (antenna2.frequency = antenna.frequency ∨
          (antenna.properties.frequencyRangeMin ≤ antenna2.frequency ∧
           antenna2.frequency ≤ antenna.properties.frequencyRangeMax))
      ∧ ls' = { ls with
          antennas := updateD ls.antennas ia (fun _ => antenna2),
          dictSignalsToSend := insertAppend ls.dictSignalsToSend antenna2.idAntenna
            { idTransmitter := -1, idReceiver := ir, memory := mb, frequency := antenna2.frequency, idAntennaReceiver := ar },
          listTransmissionChannel :=
            if ia ∈ ls.listTransmissionChannel then ls.listTransmissionChannel
            else ls.listTransmissionChannel ++ [ia] } := by
  simp only [RadiotransmissionSystem.assignDeviceAsTransmitter] at h
  split at h
  · simp at h
  · rename_i antenna hlook
    split at h
    · simp at h
    · split at h
      · simp at h
      · split at h
        · simp at h
        · rename_i antenna2 hret
          injection h with h'
          injection h' with h1 h2
          have hstruct : antenna2.idAntenna = antenna.idAntenna ∧
              antenna2.properties = antenna.properties ∧
              antenna2.communicationMode = CommunicationModeType.TRANSMISSION ∧
              (antenna2.frequency = antenna.frequency ∨
                (antenna.properties.frequencyRangeMin ≤ antenna2.frequency ∧
                 antenna2.frequency ≤ antenna.properties.frequencyRangeMax)) := by
            split at hret
            · split at hret
              · injection hret with hret'
                rw [← hret']
                exact ⟨rfl, rfl, rfl, Or.inl rfl⟩
              · obtain ⟨heq, hmin, hmax⟩ := setFrequency_ok hret
                subst heq
                exact ⟨rfl, rfl, rfl, Or.inr ⟨hmin, hmax⟩⟩
            · injection hret with hret'
              rw [← hret']
              exact ⟨rfl, rfl, rfl, Or.inl rfl⟩
          exact ⟨h1.symm, antenna, antenna2, hlook, hstruct.1, hstruct.2.1, hstruct.2.2.1,
            hstruct.2.2.2, h2.symm⟩

theorem assignDeviceAsReceiver_ok {ls : RadiotransmissionSystem} {ia : Int}
    {f : Option ℚ} {b : Bool} {ls' : RadiotransmissionSystem}
    (h : ls.assignDeviceAsReceiver ia f = Except.ok (b, ls')) :
    b = true ∧
    ∃ antenna antenna2 : TransmitReceiveDevice,
      lookupD ls.antennas ia = some antenna
      ∧ antenna2.idAntenna = antenna.idAntenna
      ∧ antenna2.properties = antenna.properties
      ∧ antenna2.communicationMode = CommunicationModeType.RECEPTION
      ∧ (antenna2.frequency = antenna.frequency ∨
          (antenna.properties.frequencyRangeMin ≤ antenna2.frequency ∧
           antenna2.frequency ≤ antenna.properties.frequencyRangeMax))
      ∧ ls' = { ls with
          antennas := updateD ls.antennas ia (fun _ => antenna2),
          dictReceptionChannel :=
            if ia ∈ ls.dictReceptionChannel then ls.dictReceptionChannel
            else ls.dictReceptionChannel ++ [ia] } := by
  simp only [RadiotransmissionSystem.assignDeviceAsReceiver] at h
  split at h
  · simp at h
  · rename_i antenna hlook
    split at h
    · simp at h
    · split at h
      · simp at h
      · split at h
        · simp at h
        · rename_i antenna2 hret
          injection h with h'
          injection h' with h1 h2
          have hstruct : antenna2.idAntenna = antenna.idAntenna ∧
              antenna2.properties = antenna.properties ∧
              antenna2.communicationMode = CommunicationModeType.RECEPTION ∧
              (antenna2.frequency = antenna.frequency ∨
                (antenna.properties.frequencyRangeMin ≤ antenna2.frequency ∧
                 antenna2.frequency ≤ antenna.properties.frequencyRangeMax)) := by
            split at hret
            · split at hret
              · injection hret with hret'
                rw [← hret']
                exact ⟨rfl, rfl, rfl, Or.inl rfl⟩
              · obtain ⟨heq, hmin, hmax⟩ := setFrequency_ok hret
                subst heq
                exact ⟨rfl, rfl, rfl, Or.inr ⟨hmin, hmax⟩⟩
            · injection hret with hret'
              rw [← hret']
              exact ⟨rfl, rfl, rfl, Or.inl rfl⟩
          exact ⟨h1.symm, antenna, antenna2, hlook, hstruct.1, hstruct.2.1, hstruct.2.2.1,
            hstruct.2.2.2, h2.symm⟩

theorem assignDeviceAsRepeater_ok_true {ls : RadiotransmissionSystem}
    {iai iao dest : Int} {destAnt : Option Int} {fi fo : Option ℚ} {sv : Bool}
    {b : Bool} {ls' : RadiotransmissionSystem}
    (h : ls.assignDeviceAsRepeater iai iao dest destAnt fi fo sv = Except.ok (b, ls')) :
    b = true := by
  simp only [RadiotransmissionSystem.assignDeviceAsRepeater] at h
  split at h
  · simp at h
  · simp at h
  · split at h
    · simp at h
    · split at h
      · simp at h
      · split at h
        · simp at h
        · split at h
          · simp at h
          · split at h
            · simp at h
            · split at h
              · simp at h
              · injection h with h'
                injection h' with h1 h2
                exact h1.symm

/-- C9: whenever `assign_device_as_transmitter` does not raise, the
assignment has taken effect (the device is in transmission mode, the
signal is staged under the device's antenna id, and the device is recorded
in the active-transmit list) and yet the method returns `False`; the
sibling methods `assign_device_as_receiver` and
`assign_device_as_repeater` return `True` on success, so the transmitter
method's boolean result cannot be used to detect success. -/
theorem assign_transmitter_returns_false_on_success :
    (∀ (ls : RadiotransmissionSystem) (mb : MemoryBlock) (ia ir : Int) (f : Option ℚ)
        (ar : Option Int),
      (ls.assignDeviceAsTransmitter mb ia ir f ar).isOk = true →
      ∃ ls', ls.assignDeviceAsTransmitter mb ia ir f ar = Except.ok (false, ls')
        ∧ ∃ dev, lookupD ls'.antennas ia = some dev
            ∧ dev.communicationMode = CommunicationModeType.TRANSMISSION
            ∧ ({ idTransmitter := -1, idReceiver := ir, memory := mb, frequency := dev.frequency, idAntennaReceiver := ar } : Radiosignal)
                ∈ (lookupD ls'.dictSignalsToSend dev.idAntenna).getD []
            ∧ ia ∈ ls'.listTransmissionChannel)
    ∧ (∀ (ls : RadiotransmissionSystem) (ia : Int) (f : Option ℚ),
      (ls.assignDeviceAsReceiver ia f).isOk = true →
      ∃ ls', ls.assignDeviceAsReceiver ia f = Except.ok (true, ls'))
    ∧ (∀ (ls : RadiotransmissionSystem) (iai iao dest : Int) (destAnt : Option Int)
        (fi fo : Option ℚ) (sv : Bool),
      (ls.assignDeviceAsRepeater iai iao dest destAnt fi fo sv).isOk = true →
      ∃ ls', ls.assignDeviceAsRepeater iai iao dest destAnt fi fo sv
        = Except.ok (true, ls')) := by
  refine ⟨?_, ?_, ?_⟩
  · intro ls mb ia ir f ar hok
    rcases hres : ls.assignDeviceAsTransmitter mb ia ir f ar with e | r
    · rw [hres] at hok; simp [Except.isOk, Except.toBool] at hok
    · obtain ⟨b, ls'⟩ := r
      obtain ⟨hb, antenna, antenna2, hlook, hid, hprops, hmode, _, hls⟩ :=
        assignDeviceAsTransmitter_ok hres
      subst hb
      refine ⟨ls', rfl, antenna2, ?_, hmode, ?_, ?_⟩
      · rw [hls]
        simp [lookupD_updateD_self, hlook]
      · rw [hls]
        simp only [lookupD_insertAppend_self, Option.getD_some]
        exact List.mem_append_right _ (List.mem_singleton.mpr rfl)
      · rw [hls]
        by_cases hmem : ia ∈ ls.listTransmissionChannel
        · simp [hmem]
        · simp [hmem]
  · intro ls ia f hok
    rcases hres : ls.assignDeviceAsReceiver ia f with e | r
    · rw [hres] at hok; simp [Except.isOk, Except.toBool] at hok
    · obtain ⟨b, ls'⟩ := r
      obtain ⟨hb, _⟩ := assignDeviceAsReceiver_ok hres
      subst hb
      exact ⟨ls', rfl⟩
  · intro ls iai iao dest destAnt fi fo sv hok
    rcases hres : ls.assignDeviceAsRepeater iai iao dest destAnt fi fo sv with e | r
    · rw [hres] at hok; simp [Except.isOk, Except.toBool] at hok
    · obtain ⟨b, ls'⟩ := r
      have hb := assignDeviceAsRepeater_ok_true hres
      subst hb
      exact ⟨ls', rfl⟩

/-- Witness for C9 on the two-device sample system: a successful
transmitter assignment returns `False` with the device staged and in
transmission mode, while successful receiver and repeater assignments
return `True`. -/
theorem assign_transmitter_returns_false_on_success_witness :
    (∃ ls', sampleLocalSystem.assignDeviceAsTransmitter sampleMemory 0 2 (some 100) (some 1)
        = Except.ok (false, ls')
      ∧ ∃ dev, lookupD ls'.antennas 0 = some dev
          ∧ dev.communicationMode = CommunicationModeType.TRANSMISSION
          ∧ ({ idTransmitter := -1, idReceiver := 2, memory := sampleMemory, frequency := dev.frequency, idAntennaReceiver := some 1 } : Radiosignal)
              ∈ (lookupD ls'.dictSignalsToSend dev.idAntenna).getD []
          ∧ (0 : Int) ∈ ls'.listTransmissionChannel)
    ∧ (∃ ls', sampleLocalSystem.assignDeviceAsReceiver 0 (some 100) = Except.ok (true, ls'))
    ∧ (∃ ls', sampleLocalSystem.assignDeviceAsRepeater 0 1 2 none (some 100) (some 150) false
        = Except.ok (true, ls')) :=
  ⟨assign_transmitter_returns_false_on_success.1 sampleLocalSystem sampleMemory 0 2
      (some 100) (some 1) (by decide),
   assign_transmitter_returns_false_on_success.2.1 sampleLocalSystem 0 (some 100) (by decide),
   assign_transmitter_returns_false_on_success.2.2 sampleLocalSystem 0 1 2 none
      (some 100) (some 150) false (by decide)⟩

theorem lookupD_updateD {α : Type} (l : List (Int × α)) (k j : Int) (f : α → α) :
    lookupD (updateD l k f) j =
      if k = j then (lookupD l j).map f else lookupD l j := by
  induction l with
  | nil => by_cases hkj : k = j <;> simp [lookupD, updateD, hkj]
  | cons p t ih =>
    obtain ⟨k', v⟩ := p
    by_cases hk : k' = k
    · subst hk
      by_cases hkj : k' = j
      · subst hkj; simp [lookupD, updateD]
      · simp [lookupD, updateD, hkj, ih]
    · simp only [updateD, if_neg hk, lookupD]
      by_cases hk' : k' = j
      · subst hk'
        have : k ≠ k' := fun h => hk h.symm
        simp [this]
      · simp [hk', ih]

theorem lookupD_map_val {α β : Type} (l : List (Int × α)) (g : α → β) (j : Int) :
    lookupD (l.map (fun p => (p.1, g p.2))) j = (lookupD l j).map g := by
  induction l with
  | nil => simp [lookupD]
  | cons p t ih =>
    obtain ⟨k', v⟩ := p
    by_cases hk : k' = j <;> simp [lookupD, hk, ih]

theorem mem_updateD {α : Type} {l : List (Int × α)} {k : Int} {f : α → α} {p : Int × α}
    (h : p ∈ updateD l k f) : p ∈ l ∨ ∃ v, (k, v) ∈ l ∧ p = (k, f v) := by
  induction l with
  | nil => simp [updateD] at h
  | cons q t ih =>
    obtain ⟨k', v⟩ := q
    by_cases hk : k' = k
    · subst hk
      simp only [updateD, if_pos rfl, List.mem_cons, eq_self_iff_true, if_true] at h
      rcases h with h | h
      · exact Or.inr ⟨v, List.mem_cons_self _ _, h⟩
      · exact Or.inl (List.mem_cons_of_mem _ h)
    · simp only [updateD, if_neg hk, List.mem_cons] at h
      rcases h with h | h
      · exact Or.inl (h ▸ List.mem_cons_self _ _)
      · rcases ih h with h' | ⟨w, hw, hp⟩
        · exact Or.inl (List.mem_cons_of_mem _ h')
        · exact Or.inr ⟨w, List.mem_cons_of_mem _ hw, hp⟩

theorem SameFP.refl (a : List (Int × TransmitReceiveDevice)) : SameFP a a :=
  fun _ => rfl

theorem SameFP.trans {a b c : List (Int × TransmitReceiveDevice)}
    (h1 : SameFP a b) (h2 : SameFP b c) : SameFP a c :=
  fun j => (h2 j).trans (h1 j)

theorem sameFP_updateD_mode (a : List (Int × TransmitReceiveDevice)) (k : Int)
    (M : CommunicationModeType) :
    SameFP a (updateD a k (fun d => { d with communicationMode := M })) := by
  intro j
  rw [lookupD_updateD]
  by_cases hkj : k = j
  · rw [if_pos hkj]
    cases lookupD a j <;> simp
  · rw [if_neg hkj]

theorem SameFP.isSome_eq {a b : List (Int × TransmitReceiveDevice)} (h : SameFP a b)
    (j : Int) : (lookupD b j).isSome = (lookupD a j).isSome := by
  have := h j
  cases hb : lookupD b j <;> cases ha : lookupD a j <;> simp [hb, ha] at this ⊢

theorem SameFP.lookup_some {a b : List (Int × TransmitReceiveDevice)} (h : SameFP a b)
    {j : Int} {dev : TransmitReceiveDevice} (hj : lookupD a j = some dev) :
    ∃ dev', lookupD b j = some dev' ∧ dev'.idAntenna = dev.idAntenna ∧
      dev'.frequency = dev.frequency ∧ dev'.properties = dev.properties := by
  have hh := h j
  rw [hj] at hh
  cases hb : lookupD b j with
  | none => rw [hb] at hh; simp at hh
  | some dev' =>
    rw [hb] at hh
    injection hh with hh'
    refine ⟨dev', rfl, ?_, ?_, ?_⟩
    · exact congrArg Prod.fst hh'
    · exact congrArg (fun q => q.2.1) hh'
    · exact congrArg (fun q => q.2.2) hh'

theorem device_mode_update_eq {d d' : TransmitReceiveDevice} (M : CommunicationModeType)
    (h1 : d'.idAntenna = d.idAntenna) (h2 : d'.frequency = d.frequency)
    (h3 : d'.properties = d.properties) :
    ({ d' with communicationMode := M } : TransmitReceiveDevice)
      = { d with communicationMode := M } := by
  cases d; cases d'
  simp_all

theorem allDevicesInRange_updateD {l : List (Int × TransmitReceiveDevice)} {k : Int}
    {f : TransmitReceiveDevice → TransmitReceiveDevice} (hl : AllDevicesInRange l)
    (hf : ∀ v, (k, v) ∈ l → DeviceInRange (f v)) : AllDevicesInRange (updateD l k f) := by
  intro p hp
  rcases mem_updateD hp with h | ⟨v, hv, rfl⟩
  · exact hl p h
  · exact hf v hv

theorem allDevicesInRange_updateD_mode {l : List (Int × TransmitReceiveDevice)} {k : Int}
    (M : CommunicationModeType) (hl : AllDevicesInRange l) :
    AllDevicesInRange (updateD l k (fun d => { d with communicationMode := M })) :=
  allDevicesInRange_updateD hl (fun v hv => hl (k, v) hv)

theorem allDevicesInRange_map_mode {l : List (Int × TransmitReceiveDevice)}
    (M : CommunicationModeType) (hl : AllDevicesInRange l) :
    AllDevicesInRange (l.map (fun p => (p.1, { p.2 with communicationMode := M }))) := by
  intro p hp
  rcases List.mem_map.mp hp with ⟨q, hq, rfl⟩
  exact hl q hq

theorem transmitSignals_error_shape {d : ℚ} (hd : d ≠ 0) {ia : Int}
    {antenna : TransmitReceiveDevice} :
    ∀ {sigs : List Radiosignal} {ants gc e},
      RadiotransmissionSystem.transmitSignals d ia antenna sigs ants gc = Except.error e →
      e = capacityErrorMessage := by
  intro sigs
  induction sigs with
  | nil =>
    intro ants gc e h
    simp [RadiotransmissionSystem.transmitSignals] at h
  | cons s rest ih =>
    intro ants gc e h
    simp only [RadiotransmissionSystem.transmitSignals] at h
    rw [if_neg hd] at h
    by_cases hcap : antenna.properties.channelCapacityTransmit ≥ (s.memory.size : ℚ) / d
    · rw [if_pos hcap] at h
      exact ih h
    · rw [if_neg hcap] at h
      injection h with h'
      exact h'.symm

theorem transmitSignals_capacity_error {d : ℚ} (hd : d ≠ 0) {ia : Int}
    {antenna : TransmitReceiveDevice} :
    ∀ {sigs : List Radiosignal} (ants : List (Int × TransmitReceiveDevice))
      (gc : RadioTransmissionMediumConsumer),
      (∃ sig ∈ sigs, antenna.properties.channelCapacityTransmit < (sig.memory.size : ℚ) / d) →
      RadiotransmissionSystem.transmitSignals d ia antenna sigs ants gc
        = Except.error capacityErrorMessage := by
  intro sigs
  induction sigs with
  | nil =>
    intro ants gc hbad
    rcases hbad with ⟨sig, hmem, _⟩
    simp at hmem
  | cons s rest ih =>
    intro ants gc hbad
    simp only [RadiotransmissionSystem.transmitSignals]
    rw [if_neg hd]
    by_cases hcap : antenna.properties.channelCapacityTransmit ≥ (s.memory.size : ℚ) / d
    · rw [if_pos hcap]
      rcases hbad with ⟨sig, hmem, hsig⟩
      rcases List.mem_cons.mp hmem with rfl | hmem'
      · exact absurd hcap (not_le.mpr hsig)
      · exact ih _ _ ⟨sig, hmem', hsig⟩
    · rw [if_neg hcap]

theorem transmitSignals_ok_sameFP {d : ℚ} {ia : Int} {antenna : TransmitReceiveDevice} :
    ∀ {sigs : List Radiosignal} {ants gc ants1 gc1},
      RadiotransmissionSystem.transmitSignals d ia antenna sigs ants gc
        = Except.ok (ants1, gc1) → SameFP ants ants1 := by
  intro sigs
  induction sigs with
  | nil =>
    intro ants gc ants1 gc1 h
    simp only [RadiotransmissionSystem.transmitSignals] at h
    injection h with h'
    have h1 : ants = ants1 := congrArg Prod.fst h'
    exact h1 ▸ SameFP.refl ants
  | cons s rest ih =>
    intro ants gc ants1 gc1 h
    simp only [RadiotransmissionSystem.transmitSignals] at h
    by_cases hd : d = 0
    · rw [if_pos hd] at h; exact absurd h (by simp)
    · rw [if_neg hd] at h
      by_cases hcap : antenna.properties.channelCapacityTransmit ≥ (s.memory.size : ℚ) / d
      · rw [if_pos hcap] at h
        exact SameFP.trans (sameFP_updateD_mode ants ia CommunicationModeType.TRANSMISSION) (ih h)
      · rw [if_neg hcap] at h; exact absurd h (by simp)

theorem transmitSignals_ok_allInRange {d : ℚ} {ia : Int} {antenna : TransmitReceiveDevice} :
    ∀ {sigs : List Radiosignal} {ants gc ants1 gc1},
      RadiotransmissionSystem.transmitSignals d ia antenna sigs ants gc
        = Except.ok (ants1, gc1) → AllDevicesInRange ants → AllDevicesInRange ants1 := by
  intro sigs
  induction sigs with
  | nil =>
    intro ants gc ants1 gc1 h hall
    simp only [RadiotransmissionSystem.transmitSignals] at h
    injection h with h'
    have h1 : ants = ants1 := congrArg Prod.fst h'
    exact h1 ▸ hall
  | cons s rest ih =>
    intro ants gc ants1 gc1 h hall
    simp only [RadiotransmissionSystem.transmitSignals] at h
    by_cases hd : d = 0
    · rw [if_pos hd] at h; exact absurd h (by simp)
    · rw [if_neg hd] at h
      by_cases hcap : antenna.properties.channelCapacityTransmit ≥ (s.memory.size : ℚ) / d
      · rw [if_pos hcap] at h
        exact ih h (allDevicesInRange_updateD_mode _ hall)
      · rw [if_neg hcap] at h; exact absurd h (by simp)

theorem transmitLoop_ok_sameFP {d : ℚ} :
    ∀ {entries : List (Int × List Radiosignal)} {ants gc ants1 gc1},
      RadiotransmissionSystem.transmitLoop d entries ants gc = Except.ok (ants1, gc1) →
      SameFP ants ants1 := by
  intro entries
  induction entries with
  | nil =>
    intro ants gc ants1 gc1 h
    simp only [RadiotransmissionSystem.transmitLoop] at h
    injection h with h'
    have h1 : ants = ants1 := congrArg Prod.fst h'
    exact h1 ▸ SameFP.refl ants
  | cons p rest ih =>
    obtain ⟨i, sigs⟩ := p
    intro ants gc ants1 gc1 h
    simp only [RadiotransmissionSystem.transmitLoop] at h
    rcases hl : lookupD ants i with _ | antenna
    · simp only [hl] at h
      exact Except.noConfusion h
    · simp only [hl] at h
      rcases hres : RadiotransmissionSystem.transmitSignals d i antenna sigs ants gc with e | r
      · simp only [hres] at h
        exact Except.noConfusion h
      · obtain ⟨antsM, gcM⟩ := r
        simp only [hres] at h
        exact SameFP.trans (transmitSignals_ok_sameFP hres) (ih h)

theorem transmitLoop_ok_allInRange {d : ℚ} :
    ∀ {entries : List (Int × List Radiosignal)} {ants gc ants1 gc1},
      RadiotransmissionSystem.transmitLoop d entries ants gc = Except.ok (ants1, gc1) →
      AllDevicesInRange ants → AllDevicesInRange ants1 := by
  intro entries
  induction entries with
  | nil =>
    intro ants gc ants1 gc1 h hall
    simp only [RadiotransmissionSystem.transmitLoop] at h
    injection h with h'
    have h1 : ants = ants1 := congrArg Prod.fst h'
    exact h1 ▸ hall
  | cons p rest ih =>
    obtain ⟨i, sigs⟩ := p
    intro ants gc ants1 gc1 h hall
    simp only [RadiotransmissionSystem.transmitLoop] at h
    rcases hl : lookupD ants i with _ | antenna
    · simp only [hl] at h
      exact Except.noConfusion h
    · simp only [hl] at h
      rcases hres : RadiotransmissionSystem.transmitSignals d i antenna sigs ants gc with e | r
      · simp only [hres] at h
        exact Except.noConfusion h
      · obtain ⟨antsM, gcM⟩ := r
        simp only [hres] at h
        exact ih h (transmitSignals_ok_allInRange hres hall)

theorem transmitLoop_capacity_error {d : ℚ} (hd : d ≠ 0) :
    ∀ {entries : List (Int × List Radiosignal)} {ants gc},
      (∀ p ∈ entries, (lookupD ants p.1).isSome = true) →
      (∃ p ∈ entries, ∃ dev, lookupD ants p.1 = some dev ∧
        ∃ sig ∈ p.2, dev.properties.channelCapacityTransmit < (sig.memory.size : ℚ) / d) →
      RadiotransmissionSystem.transmitLoop d entries ants gc
        = Except.error capacityErrorMessage := by
  intro entries
  induction entries with
  | nil =>
    intro ants gc _ hbad
    rcases hbad with ⟨p, hp, _⟩
    simp at hp
  | cons q rest ih =>
    obtain ⟨i, sigs⟩ := q
    intro ants gc hkeys hbad
    have hkey0 := hkeys (i, sigs) (List.mem_cons_self _ _)
    rcases hl : lookupD ants i with _ | dev
    · rw [hl] at hkey0; simp at hkey0
    · simp only [RadiotransmissionSystem.transmitLoop]
      simp only [hl]
      rcases hbad with ⟨p, hp, dev', hdev', sig, hsig, hcap⟩
      rcases List.mem_cons.mp hp with rfl | hp'
      · have hdd : dev' = dev := by
          rw [hl] at hdev'
          injection hdev' with h9
          exact h9.symm
        subst hdd
        rw [transmitSignals_capacity_error hd ants gc ⟨sig, hsig, hcap⟩]
      · rcases hres : RadiotransmissionSystem.transmitSignals d i dev sigs ants gc with e | r
        · simp only [hres]
          rw [transmitSignals_error_shape hd hres]
        · obtain ⟨antsM, gcM⟩ := r
          simp only [hres]
          have hfp := transmitSignals_ok_sameFP hres
          obtain ⟨dev'', hdev'', _, _, hprops⟩ := hfp.lookup_some hdev'
          refine ih ?_ ⟨p, hp', dev'', hdev'', sig, hsig, ?_⟩
          · intro q hq
            rw [hfp.isSome_eq q.1]
            exact hkeys q (List.mem_cons_of_mem _ hq)
          · rw [hprops]
            exact hcap

theorem finalizeSignals_ok {d : ℚ} (hd : d ≠ 0) (ia : Int)
    (antenna : TransmitReceiveDevice) :
    ∀ (sigs : List Radiosignal) (acc : List (Int × List MemoryBlock)),
      ∃ acc', RadiotransmissionSystem.finalizeSignals (some d) ia antenna sigs acc
          = Except.ok acc' ∧
        (lookupD acc' ia).getD [] =
          (lookupD acc ia).getD [] ++
            (sigs.filter (fun sig => decide (sig.idAntennaReceiver = some ia) &&
              decide (antenna.properties.channelCapacityReceive ≥ (sig.memory.size : ℚ) / d))).map
              (fun sig => sig.memory) ∧
        ∀ j, j ≠ ia → lookupD acc' j = lookupD acc j := by
  intro sigs
  induction sigs with
  | nil =>
    intro acc
    exact ⟨acc, rfl, by simp, fun j _ => rfl⟩
  | cons s rest ih =>
    intro acc
    simp only [RadiotransmissionSystem.finalizeSignals]
    by_cases hant : s.idAntennaReceiver = some ia
    · rw [if_pos hant, if_neg hd]
      by_cases hcap : antenna.properties.channelCapacityReceive ≥ (s.memory.size : ℚ) / d
      · rw [if_pos hcap]
        obtain ⟨acc', hrun, hbucket, hother⟩ := ih (insertAppend acc ia s.memory)
        refine ⟨acc', hrun, ?_, ?_⟩
        · rw [hbucket, lookupD_insertAppend_self]
          rw [List.filter_cons_of_pos (by simp [hant, hcap])]
          simp
        · intro j hj
          rw [hother j hj, lookupD_insertAppend_other _ _ hj]
      · rw [if_neg hcap]
        obtain ⟨acc', hrun, hbucket, hother⟩ := ih acc
        refine ⟨acc', hrun, ?_, hother⟩
        rw [hbucket, List.filter_cons_of_neg (by simp [hcap])]
    · rw [if_neg hant]
      obtain ⟨acc', hrun, hbucket, hother⟩ := ih acc
      refine ⟨acc', hrun, ?_, hother⟩
      rw [hbucket, List.filter_cons_of_neg (by simp [hant])]

theorem finalizeLoop_ok {gc : RadioTransmissionMediumConsumer} {d : ℚ} (hd : d ≠ 0) :
    ∀ {snap : List (Int × TransmitReceiveDevice)} (acc : List (Int × List MemoryBlock)),
      (snap.map Prod.fst).Nodup →
      ∃ acc', RadiotransmissionSystem.finalizeLoop gc (some d) snap acc = Except.ok acc' ∧
        (∀ p ∈ snap, (lookupD acc' p.1).getD [] =
          (lookupD acc p.1).getD [] ++
            ((gc.receiveSignal (some p.2.frequency)).filter
              (fun sig => decide (sig.idAntennaReceiver = some p.1) &&
                decide (p.2.properties.channelCapacityReceive ≥ (sig.memory.size : ℚ) / d))).map
              (fun sig => sig.memory)) ∧
        ∀ j, j ∉ snap.map Prod.fst → lookupD acc' j = lookupD acc j := by
  intro snap
  induction snap with
  | nil =>
    intro acc _
    exact ⟨acc, rfl, by simp, fun j _ => rfl⟩
  | cons q rest ih =>
    obtain ⟨i, dev⟩ := q
    intro acc hnodup
    have hnodup' : (rest.map Prod.fst).Nodup := (List.nodup_cons.mp hnodup).2
    have hnotin : i ∉ rest.map Prod.fst := (List.nodup_cons.mp hnodup).1
    obtain ⟨acc1, hrun1, hbucket1, hother1⟩ :=
      finalizeSignals_ok hd i dev (gc.receiveSignal (some dev.frequency)) acc
    obtain ⟨acc', hrun, hbucket, hother⟩ := ih acc1 hnodup'
    simp only [RadiotransmissionSystem.finalizeLoop]
    simp only [hrun1]
    refine ⟨acc', hrun, ?_, ?_⟩
    · intro p hp
      rcases List.mem_cons.mp hp with rfl | hp'
      · show (lookupD acc' i).getD [] = _
        rw [hother i hnotin, hbucket1]
      · have hne : p.1 ≠ i := by
          intro hcontra
          exact hnotin (hcontra ▸ List.mem_map_of_mem Prod.fst hp')
        rw [hbucket p hp', hother1 p.1 hne]
    · intro j hj
      have hj1 : j ∉ rest.map Prod.fst := fun hc => hj (List.mem_cons_of_mem _ hc)
      have hj2 : j ≠ i := by
        intro hcontra
        exact hj (hcontra ▸ List.mem_cons_self _ _)
      rw [hother j hj1, hother1 j hj2]

/-- C4: during the local step, a staged signal whose payload divided by
the duration strictly exceeds its device's transmit capacity makes
`imitation_step` raise the fatal capacity error (the signal is never
silently dropped), while in `finalize_step` a delivered signal whose
payload divided by the stored duration exceeds the device's receive
capacity is merely filtered out of the per-antenna results (the filter
keeps only fitting signals on the matching antenna) and no error is
raised. -/
theorem transmit_capacity_fatal_receive_capacity_filtered :
    (∀ (ls : RadiotransmissionSystem) (gc : RadioTransmissionMediumConsumer) (d : ℚ),
      d ≠ 0 →
      (∀ p ∈ ls.dictSignalsToSend, (lookupD ls.antennas p.1).isSome = true) →
      (∃ p ∈ ls.dictSignalsToSend, ∃ dev, lookupD ls.antennas p.1 = some dev ∧
        ∃ sig ∈ p.2, dev.properties.channelCapacityTransmit < (sig.memory.size : ℚ) / d) →
      ls.imitationStep d gc = Except.error capacityErrorMessage)
    ∧ (∀ (ls : RadiotransmissionSystem) (gc : RadioTransmissionMediumConsumer) (d : ℚ),
      ls.duration = some d → d ≠ 0 →
      (ls.dictReceptionChannelFromPrevStep.map Prod.fst).Nodup →
      ∃ ls', ls.finalizeStep gc = Except.ok ls' ∧
        ∀ p ∈ ls.dictReceptionChannelFromPrevStep,
          (lookupD ls'.dictIdDeviceMemoryBlocksToReceive p.1).getD [] =
            (lookupD ls.dictIdDeviceMemoryBlocksToReceive p.1).getD [] ++
              ((gc.receiveSignal (some p.2.frequency)).filter
                (fun sig => decide (sig.idAntennaReceiver = some p.1) &&
                  decide (p.2.properties.channelCapacityReceive ≥ (sig.memory.size : ℚ) / d))).map
                (fun sig => sig.memory)) := by
  constructor
  · intro ls gc d hd hkeys hbad
    simp only [RadiotransmissionSystem.imitationStep]
    rw [transmitLoop_capacity_error hd hkeys hbad]
  · intro ls gc d hdur hd hnodup
    obtain ⟨acc', hrun, hbucket, _⟩ :=
      finalizeLoop_ok hd ls.dictIdDeviceMemoryBlocksToReceive hnodup
    refine ⟨{ ls with dictIdDeviceMemoryBlocksToReceive := acc' }, ?_, ?_⟩
    · unfold RadiotransmissionSystem.finalizeStep
      rw [hdur, hrun]
    · intro p hp
      exact hbucket p hp

/-- Witness for C4: the sample system with an over-sized staged payload
aborts its step with the capacity error, and finalize on the snapshot
system succeeds, delivering only the fitting signal of the inbox. -/
theorem transmit_capacity_fatal_receive_capacity_filtered_witness :
    overCapacityLocalSystem.imitationStep 1 sampleGlobalConsumer
        = Except.error capacityErrorMessage
    ∧ ∃ ls', finalizeLocalSystem.finalizeStep finalizeGlobalConsumer = Except.ok ls' ∧
        ∀ p ∈ finalizeLocalSystem.dictReceptionChannelFromPrevStep,
          (lookupD ls'.dictIdDeviceMemoryBlocksToReceive p.1).getD [] =
            (lookupD finalizeLocalSystem.dictIdDeviceMemoryBlocksToReceive p.1).getD [] ++
              ((finalizeGlobalConsumer.receiveSignal (some p.2.frequency)).filter
                (fun sig => decide (sig.idAntennaReceiver = some p.1) &&
                  decide (p.2.properties.channelCapacityReceive ≥
                    (sig.memory.size : ℚ) / 1))).map
                (fun sig => sig.memory) :=
  ⟨transmit_capacity_fatal_receive_capacity_filtered.1 overCapacityLocalSystem
      sampleGlobalConsumer 1 (by decide) (by decide)
      ⟨(0, [overCapacitySignal]), by decide, overCapacityDevice, by decide,
        overCapacitySignal, by decide, by decide⟩,
   transmit_capacity_fatal_receive_capacity_filtered.2 finalizeLocalSystem
      finalizeGlobalConsumer 1 (by decide) (by decide) (by decide)⟩

theorem receptionLoop_lookup :
    ∀ (ids : List Int) (ants : List (Int × TransmitReceiveDevice))
      (gc : RadioTransmissionMediumConsumer) (j : Int),
      lookupD (RadiotransmissionSystem.receptionLoop ids ants gc).1 j =
        if j ∈ ids then
          (lookupD ants j).map
            (fun dv => { dv with communicationMode := CommunicationModeType.RECEPTION })
        else lookupD ants j := by
  intro ids
  induction ids with
  | nil =>
    intro ants gc j
    simp [RadiotransmissionSystem.receptionLoop]
  | cons i rest ih =>
    intro ants gc j
    simp only [RadiotransmissionSystem.receptionLoop]
    rcases hl : lookupD ants i with _ | dv
    · simp only [hl]
      rw [ih]
      by_cases hji : j = i
      · subst hji
        by_cases hjr : j ∈ rest
        · simp [hjr]
        · simp [hjr, hl]
      · simp [List.mem_cons, hji]
    · simp only [hl]
      rw [ih]
      by_cases hji : j = i
      · subst hji
        by_cases hjr : j ∈ rest
        · simp only [hjr, if_true, List.mem_cons, true_or, eq_self_iff_true]
          rw [lookupD_updateD, if_pos rfl, hl]
          simp
        · simp only [hjr, if_false, List.mem_cons, true_or, eq_self_iff_true, if_true]
          rw [lookupD_updateD, if_pos rfl, hl]
      · have hij : i ≠ j := fun hc => hji hc.symm
        rw [lookupD_updateD, if_neg hij]
        simp [List.mem_cons, hji]

theorem relayLoop_lookup_untouched :
    ∀ (chans : List RelayChannel) (ants : List (Int × TransmitReceiveDevice))
      (gc : RadioTransmissionMediumConsumer) (j : Int),
      (∀ ch ∈ chans, j ≠ ch.antennaIn ∧ j ≠ ch.antennaOut) →
      lookupD (RadiotransmissionSystem.relayLoop chans ants gc).1 j = lookupD ants j := by
  intro chans
  induction chans with
  | nil =>
    intro ants gc j _
    simp [RadiotransmissionSystem.relayLoop]
  | cons ch rest ih =>
    intro ants gc j hdisj
    have hch := hdisj ch (List.mem_cons_self _ _)
    have hrest : ∀ c ∈ rest, j ≠ c.antennaIn ∧ j ≠ c.antennaOut :=
      fun c hc => hdisj c (List.mem_cons_of_mem _ hc)
    simp only [RadiotransmissionSystem.relayLoop]
    rcases hin : lookupD ants ch.antennaIn with _ | devIn
    · simp only [hin]
      exact ih ants _ j hrest
    · rcases hout : lookupD ants ch.antennaOut with _ | devOut
      · simp only [hin, hout]
        exact ih ants _ j hrest
      · simp only [hin, hout]
        rw [ih _ _ j hrest]
        rw [lookupD_updateD, if_neg (fun hc => hch.2 hc.symm)]
        rw [lookupD_updateD, if_neg (fun hc => hch.1 hc.symm)]

theorem filterMap_congruence {α β : Type} (f g : α → Option β) :
    ∀ l : List α, (∀ a ∈ l, f a = g a) → l.filterMap f = l.filterMap g := by
  intro l
  induction l with
  | nil => intro _; rfl
  | cons a t ih =>
    intro h
    rw [List.filterMap_cons, List.filterMap_cons, h a (List.mem_cons_self _ _),
      ih (fun b hb => h b (List.mem_cons_of_mem _ hb))]

theorem finalizeStep_received_congr {ls1 ls2 : RadiotransmissionSystem}
    {gc : RadioTransmissionMediumConsumer}
    (h1 : ls1.dictReceptionChannelFromPrevStep = ls2.dictReceptionChannelFromPrevStep)
    (h2 : ls1.duration = ls2.duration)
    (h3 : ls1.dictIdDeviceMemoryBlocksToReceive = ls2.dictIdDeviceMemoryBlocksToReceive) :
    (ls1.finalizeStep gc).map (fun l => l.dictIdDeviceMemoryBlocksToReceive)
      = (ls2.finalizeStep gc).map (fun l => l.dictIdDeviceMemoryBlocksToReceive) := by
  unfold RadiotransmissionSystem.finalizeStep
  rw [h1, h2, h3]
  rcases RadiotransmissionSystem.finalizeLoop gc ls2.duration
      ls2.dictReceptionChannelFromPrevStep ls2.dictIdDeviceMemoryBlocksToReceive with e | acc
  · rfl
  · rfl

theorem assignDeviceAsReceiver_preserves {ls : RadiotransmissionSystem} {ia : Int}
    {f : Option ℚ} {b : Bool} {ls2 : RadiotransmissionSystem}
    (h : ls.assignDeviceAsReceiver ia f = Except.ok (b, ls2)) :
    ls2.dictReceptionChannelFromPrevStep = ls.dictReceptionChannelFromPrevStep ∧
    ls2.duration = ls.duration ∧
    ls2.dictIdDeviceMemoryBlocksToReceive = ls.dictIdDeviceMemoryBlocksToReceive := by
  obtain ⟨_, antenna, antenna2, _, _, _, _, _, hls⟩ := assignDeviceAsReceiver_ok h
  rw [hls]
  exact ⟨rfl, rfl, rfl⟩

theorem imitationStep_eq_ok {ls : RadiotransmissionSystem} {d : ℚ}
    {gc gc1 : RadioTransmissionMediumConsumer} {ants1 : List (Int × TransmitReceiveDevice)}
    (ht : RadiotransmissionSystem.transmitLoop d ls.dictSignalsToSend ls.antennas gc
      = Except.ok (ants1, gc1)) :
    ls.imitationStep d gc = Except.ok
      ({ ls with
         antennas := (RadiotransmissionSystem.relayLoop ls.listRelayChannel
             (RadiotransmissionSystem.receptionLoop ls.dictReceptionChannel ants1 gc1).1
             (RadiotransmissionSystem.receptionLoop ls.dictReceptionChannel ants1 gc1).2).1.map
           (fun p => (p.1, { p.2 with communicationMode := CommunicationModeType.FREE }))
         duration := some d
         dictReceptionChannelFromPrevStep := ls.dictReceptionChannel.filterMap
           (fun i => (lookupD (RadiotransmissionSystem.relayLoop ls.listRelayChannel
               (RadiotransmissionSystem.receptionLoop ls.dictReceptionChannel ants1 gc1).1
               (RadiotransmissionSystem.receptionLoop ls.dictReceptionChannel ants1 gc1).2).1
               i).map
             (fun dv => (i, dv)))
         dictIdDeviceMemoryBlocksToReceive := []
         dictSignalsToSend := []
         listTransmissionChannel := []
         dictReceptionChannel := []
         listRelayChannel := [] },
       (RadiotransmissionSystem.relayLoop ls.listRelayChannel
           (RadiotransmissionSystem.receptionLoop ls.dictReceptionChannel ants1 gc1).1
           (RadiotransmissionSystem.receptionLoop ls.dictReceptionChannel ants1 gc1).2).2) := by
  unfold RadiotransmissionSystem.imitationStep
  rw [ht]

/-- C3: the reception snapshot taken by `imitation_step` of tick N records
each device of the tick-N reception channel with its antenna id and
frequency as of tick N (in reception mode), detached from the live
registry; `finalize_step` reads only that snapshot, the stored duration
and the received map, so a receiver reassignment made before finalize is
called does not change what finalize pulls.  The first part assumes the
relay channels do not touch the reception devices (Python's relay loop
would otherwise overwrite their modes, not their ids or frequencies). -/
theorem finalize_uses_tick_n_snapshot :
    (∀ (ls ls1 : RadiotransmissionSystem) (gc gc1 : RadioTransmissionMediumConsumer) (d : ℚ),
      (∀ ch ∈ ls.listRelayChannel, ch.antennaIn ∉ ls.dictReceptionChannel ∧
        ch.antennaOut ∉ ls.dictReceptionChannel) →
      ls.imitationStep d gc = Except.ok (ls1, gc1) →
      ls1.dictReceptionChannelFromPrevStep = ls.dictReceptionChannel.filterMap
        (fun i => (lookupD ls.antennas i).map
          (fun dv => (i, { dv with communicationMode := CommunicationModeType.RECEPTION }))))
    ∧ (∀ (ls ls2 : RadiotransmissionSystem) (gc : RadioTransmissionMediumConsumer)
        (ia : Int) (f : Option ℚ) (b : Bool),
      ls.assignDeviceAsReceiver ia f = Except.ok (b, ls2) →
      (ls2.finalizeStep gc).map (fun l => l.dictIdDeviceMemoryBlocksToReceive)
        = (ls.finalizeStep gc).map (fun l => l.dictIdDeviceMemoryBlocksToReceive)) := by
  constructor
  · intro ls ls1 gc gc1 d hdisj h
    rcases ht : RadiotransmissionSystem.transmitLoop d ls.dictSignalsToSend ls.antennas gc
        with e | r
    · unfold RadiotransmissionSystem.imitationStep at h
      rw [ht] at h
      exact Except.noConfusion h
    · obtain ⟨ants1, gc1'⟩ := r
      rw [imitationStep_eq_ok ht] at h
      injection h with h'
      injection h' with hA hB
      rw [← hA]
      refine filterMap_congruence _ _ ls.dictReceptionChannel ?_
      intro i hi
      have hrelay : ∀ ch ∈ ls.listRelayChannel, i ≠ ch.antennaIn ∧ i ≠ ch.antennaOut := by
        intro ch hch
        constructor
        · intro hc
          exact (hdisj ch hch).1 (hc ▸ hi)
        · intro hc
          exact (hdisj ch hch).2 (hc ▸ hi)
      show (lookupD (RadiotransmissionSystem.relayLoop ls.listRelayChannel
          (RadiotransmissionSystem.receptionLoop ls.dictReceptionChannel ants1 gc1').1
          (RadiotransmissionSystem.receptionLoop ls.dictReceptionChannel ants1 gc1').2).1
          i).map (fun dv => (i, dv)) = _
      rw [relayLoop_lookup_untouched _ _ _ _ hrelay, receptionLoop_lookup, if_pos hi]
      have hfp := transmitLoop_ok_sameFP ht
      rcases ha : lookupD ls.antennas i with _ | dv
      · have hnone : lookupD ants1 i = none := by
          have hh := hfp i
          rw [ha] at hh
          cases hb : lookupD ants1 i
          · rfl
          · rw [hb] at hh
            exact Option.noConfusion hh
        rw [hnone]
        rfl
      · obtain ⟨dv', hdv', hid, hfreq, hprops⟩ := hfp.lookup_some ha
        rw [hdv']
        show some (i, ({ dv' with communicationMode := CommunicationModeType.RECEPTION }
            : TransmitReceiveDevice)) = _
        rw [device_mode_update_eq _ hid hfreq hprops]
        rfl
  · intro ls ls2 gc ia f b h
    obtain ⟨h1, h2, h3⟩ := assignDeviceAsReceiver_preserves h
    exact finalizeStep_received_congr h1 h2 h3

/-- Witness for C3: for the sample receiver system, the snapshot taken by
the step is the reception map with tick-time frequencies, and reassigning
device 1 afterwards leaves the finalize results unchanged. -/
theorem finalize_uses_tick_n_snapshot_witness :
    steppedLocalPair.1.dictReceptionChannelFromPrevStep
        = receiverLocalSystem.dictReceptionChannel.filterMap
          (fun i => (lookupD receiverLocalSystem.antennas i).map
            (fun dv => (i, { dv with communicationMode := CommunicationModeType.RECEPTION })))
    ∧ (reassignedLocalSystem.finalizeStep finalizeGlobalConsumer).map
          (fun l => l.dictIdDeviceMemoryBlocksToReceive)
        = (steppedLocalPair.1.finalizeStep finalizeGlobalConsumer).map
          (fun l => l.dictIdDeviceMemoryBlocksToReceive) :=
  ⟨finalize_uses_tick_n_snapshot.1 receiverLocalSystem steppedLocalPair.1
      sampleGlobalConsumer steppedLocalPair.2 1 (by decide) (by decide),
   finalize_uses_tick_n_snapshot.2 steppedLocalPair.1 reassignedLocalSystem
      finalizeGlobalConsumer 1 (some 150) true (by decide)⟩

theorem receptionLoop_allInRange :
    ∀ {ids : List Int} {ants : List (Int × TransmitReceiveDevice)}
      {gc : RadioTransmissionMediumConsumer},
      AllDevicesInRange ants →
      AllDevicesInRange (RadiotransmissionSystem.receptionLoop ids ants gc).1 := by
  intro ids
  induction ids with
  | nil =>
    intro ants gc hall
    exact hall
  | cons i rest ih =>
    intro ants gc hall
    simp only [RadiotransmissionSystem.receptionLoop]
    rcases hl : lookupD ants i with _ | dv
    · simp only [hl]
      exact ih hall
    · simp only [hl]
      exact ih (allDevicesInRange_updateD_mode _ hall)

theorem relayLoop_allInRange :
    ∀ {chans : List RelayChannel} {ants : List (Int × TransmitReceiveDevice)}
      {gc : RadioTransmissionMediumConsumer},
      AllDevicesInRange ants →
      AllDevicesInRange (RadiotransmissionSystem.relayLoop chans ants gc).1 := by
  intro chans
  induction chans with
  | nil =>
    intro ants gc hall
    exact hall
  | cons ch rest ih =>
    intro ants gc hall
    simp only [RadiotransmissionSystem.relayLoop]
    rcases hin : lookupD ants ch.antennaIn with _ | devIn
    · simp only [hin]
      exact ih hall
    · rcases hout : lookupD ants ch.antennaOut with _ | devOut
      · simp only [hin, hout]
        exact ih hall
      · simp only [hin, hout]
        exact ih (allDevicesInRange_updateD_mode _ (allDevicesInRange_updateD_mode _ hall))

theorem finalizeStep_ok_antennas {ls ls' : RadiotransmissionSystem}
    {gc : RadioTransmissionMediumConsumer} (h : ls.finalizeStep gc = Except.ok ls') :
    ls'.antennas = ls.antennas := by
  unfold RadiotransmissionSystem.finalizeStep at h
  rcases hrun : RadiotransmissionSystem.finalizeLoop gc ls.duration
      ls.dictReceptionChannelFromPrevStep ls.dictIdDeviceMemoryBlocksToReceive with e | acc
  · rw [hrun] at h
    exact Except.noConfusion h
  · rw [hrun] at h
    injection h with h'
    rw [← h']

theorem mkDevice_inRange (i : Int) (p : TransmitReceiveDeviceProperties)
    (hp : p.frequencyRangeMin ≤ p.frequencyRangeMax) :
    DeviceInRange (mkTransmitReceiveDevice i p) := by
  constructor
  · show p.frequencyRangeMin ≤ (p.frequencyRangeMax + p.frequencyRangeMin) / 2
    linarith
  · show (p.frequencyRangeMax + p.frequencyRangeMin) / 2 ≤ p.frequencyRangeMax
    linarith

theorem addDevice_allInRange {ls : RadiotransmissionSystem}
    {p : TransmitReceiveDeviceProperties} (hp : p.frequencyRangeMin ≤ p.frequencyRangeMax)
    (hall : AllDevicesInRange ls.antennas) :
    AllDevicesInRange (ls.addDevice p).antennas := by
  intro q hq
  simp only [RadiotransmissionSystem.addDevice] at hq
  rcases List.mem_append.mp hq with h | h
  · exact hall q h
  · rw [List.mem_singleton.mp h]
    exact mkDevice_inRange _ p hp

theorem assignDeviceAsTransmitter_allInRange {ls : RadiotransmissionSystem}
    {mb : MemoryBlock} {ia ir : Int} {f : Option ℚ} {ar : Option Int} {b : Bool}
    {ls' : RadiotransmissionSystem}
    (h : ls.assignDeviceAsTransmitter mb ia ir f ar = Except.ok (b, ls'))
    (hall : AllDevicesInRange ls.antennas) : AllDevicesInRange ls'.antennas := by
  obtain ⟨_, antenna, antenna2, hlook, _, hprops, _, hfreq, hls⟩ :=
    assignDeviceAsTransmitter_ok h
  rw [hls]
  refine allDevicesInRange_updateD hall ?_
  intro v _
  have hant : DeviceInRange antenna := hall (ia, antenna) (lookupD_mem hlook)
  rcases hfreq with hf | ⟨hmin, hmax⟩
  · exact ⟨by rw [hprops, hf]; exact hant.1, by rw [hprops, hf]; exact hant.2⟩
  · exact ⟨by rw [hprops]; exact hmin, by rw [hprops]; exact hmax⟩

theorem assignDeviceAsReceiver_allInRange {ls : RadiotransmissionSystem}
    {ia : Int} {f : Option ℚ} {b : Bool} {ls' : RadiotransmissionSystem}
    (h : ls.assignDeviceAsReceiver ia f = Except.ok (b, ls'))
    (hall : AllDevicesInRange ls.antennas) : AllDevicesInRange ls'.antennas := by
  obtain ⟨_, antenna, antenna2, hlook, _, hprops, _, hfreq, hls⟩ :=
    assignDeviceAsReceiver_ok h
  rw [hls]
  refine allDevicesInRange_updateD hall ?_
  intro v _
  have hant : DeviceInRange antenna := hall (ia, antenna) (lookupD_mem hlook)
  rcases hfreq with hf | ⟨hmin, hmax⟩
  · exact ⟨by rw [hprops, hf]; exact hant.1, by rw [hprops, hf]; exact hant.2⟩
  · exact ⟨by rw [hprops]; exact hmin, by rw [hprops]; exact hmax⟩

theorem imitationStep_ok_allInRange {ls ls1 : RadiotransmissionSystem} {d : ℚ}
    {gc gc1 : RadioTransmissionMediumConsumer}
    (h : ls.imitationStep d gc = Except.ok (ls1, gc1))
    (hall : AllDevicesInRange ls.antennas) : AllDevicesInRange ls1.antennas := by
  rcases ht : RadiotransmissionSystem.transmitLoop d ls.dictSignalsToSend ls.antennas gc
      with e | r
  · unfold RadiotransmissionSystem.imitationStep at h
    rw [ht] at h
    exact Except.noConfusion h
  · obtain ⟨ants1, gc1'⟩ := r
    rw [imitationStep_eq_ok ht] at h
    injection h with h'
    injection h' with hA hB
    rw [← hA]
    show AllDevicesInRange ((RadiotransmissionSystem.relayLoop ls.listRelayChannel
      (RadiotransmissionSystem.receptionLoop ls.dictReceptionChannel ants1 gc1').1
      (RadiotransmissionSystem.receptionLoop ls.dictReceptionChannel ants1 gc1').2).1.map
        (fun p => (p.1, { p.2 with communicationMode := CommunicationModeType.FREE })))
    exact allDevicesInRange_map_mode _
      (relayLoop_allInRange (receptionLoop_allInRange (transmitLoop_ok_allInRange ht hall)))

theorem assignDeviceAsRepeater_allInRange {ls : RadiotransmissionSystem}
    {iai iao dest : Int} {destAnt : Option Int} {fi fo : Option ℚ} {sv : Bool}
    {b : Bool} {ls' : RadiotransmissionSystem}
    (h : ls.assignDeviceAsRepeater iai iao dest destAnt fi fo sv = Except.ok (b, ls'))
    (hall : AllDevicesInRange ls.antennas) : AllDevicesInRange ls'.antennas := by
  simp only [RadiotransmissionSystem.assignDeviceAsRepeater] at h
  split at h
  · exact Except.noConfusion h
  · exact Except.noConfusion h
  · rename_i antennaIn antennaOut hlookIn hlookOut
    split at h
    · exact Except.noConfusion h
    · split at h
      · exact Except.noConfusion h
      · split at h
        · exact Except.noConfusion h
        · split at h
          · exact Except.noConfusion h
          · split at h
            · exact Except.noConfusion h
            · rename_i antennaIn2 hretIn
              split at h
              · exact Except.noConfusion h
              · rename_i antennaOut3 hretOut
                injection h with h'
                injection h' with h1 h2
                rw [← h2]
                have hallIn : DeviceInRange antennaIn := hall _ (lookupD_mem hlookIn)
                have hallOut : DeviceInRange antennaOut := hall _ (lookupD_mem hlookOut)
                have hIn1 : DeviceInRange
                    ({ antennaIn with communicationMode := CommunicationModeType.RELAYING_IN }
                      : TransmitReceiveDevice) := hallIn
                have hIn2 : DeviceInRange antennaIn2 := by
                  split at hretIn
                  · split at hretIn
                    · injection hretIn with hq
                      exact hq ▸ hIn1
                    · obtain ⟨heq, hmin, hmax⟩ := setFrequency_ok hretIn
                      subst heq
                      exact ⟨hmin, hmax⟩
                  · injection hretIn with hq
                    exact hq ▸ hIn1
                split
                · rename_i aL hlk1
                  simp only [hlk1] at hretOut
                  have haL : DeviceInRange aL :=
                    (allDevicesInRange_updateD hall (fun v _ => hIn1)) _ (lookupD_mem hlk1)
                  have hOut1 : DeviceInRange
                      ({ aL with communicationMode := CommunicationModeType.RELAYING_OUT }
                        : TransmitReceiveDevice) := haL
                  have hall3 : AllDevicesInRange (updateD (updateD (updateD ls.antennas iai
                      (fun _ => ({ antennaIn with
                        communicationMode := CommunicationModeType.RELAYING_IN }
                        : TransmitReceiveDevice))) iao
                      (fun _ => ({ aL with
                        communicationMode := CommunicationModeType.RELAYING_OUT }
                        : TransmitReceiveDevice))) iai (fun _ => antennaIn2)) :=
                    allDevicesInRange_updateD (allDevicesInRange_updateD
                      (allDevicesInRange_updateD hall (fun v _ => hIn1))
                      (fun v _ => hOut1)) (fun v _ => hIn2)
                  have hOut3 : DeviceInRange antennaOut3 := by
                    split at hretOut
                    · split at hretOut
                      · injection hretOut with hq
                        split at hq
                        · rename_i a heq3
                          exact hq ▸ (hall3 _ (lookupD_mem heq3))
                        · exact hq ▸ hOut1
                      · obtain ⟨heq, hmin, hmax⟩ := setFrequency_ok hretOut
                        subst heq
                        exact ⟨hmin, hmax⟩
                    · injection hretOut with hq
                      split at hq
                      · rename_i a heq3
                        exact hq ▸ (hall3 _ (lookupD_mem heq3))
                      · exact hq ▸ hOut1
                  exact allDevicesInRange_updateD hall3 (fun v _ => hOut3)
                · rename_i hlk1
                  rw [lookupD_updateD] at hlk1
                  split at hlk1
                  · rw [hlookOut] at hlk1
                    exact Option.noConfusion hlk1
                  · rw [hlookOut] at hlk1
                    exact Option.noConfusion hlk1

/-- C8: the in-range invariant `frequency_range_min ≤ frequency ≤
frequency_range_max` holds for every device at all times: property
construction rejects an inverted range, a fresh device starts at the
midpoint of its range, `set_frequency` raises for any frequency outside
the closed range (the raise discards the update, leaving the device
unchanged) and otherwise installs exactly the requested in-range
frequency, and every operation of the local system — adding a device,
the three assignments, the imitation step and the finalize step —
preserves the invariant for the whole registry. -/
theorem device_frequency_range_invariant :
    (∀ (ct cr mn mx cons : ℚ) (cot cor : Option ℚ),
      (mn > mx → mkTransmitReceiveDeviceProperties ct cr mn mx cons cot cor
        = Except.error "Must be frequency_range_min <= frequency_range_max.")
      ∧ ∀ p, mkTransmitReceiveDeviceProperties ct cr mn mx cons cot cor = Except.ok p →
          p.frequencyRangeMin ≤ p.frequencyRangeMax)
    ∧ (∀ (i : Int) (p : TransmitReceiveDeviceProperties),
        p.frequencyRangeMin ≤ p.frequencyRangeMax →
        DeviceInRange (mkTransmitReceiveDevice i p))
    ∧ (∀ (dev : TransmitReceiveDevice) (f : ℚ),
        ((∃ e, dev.setFrequency f = Except.error e) ↔
          (f < dev.properties.frequencyRangeMin ∨ f > dev.properties.frequencyRangeMax))
        ∧ ∀ dev', dev.setFrequency f = Except.ok dev' →
            dev' = { dev with frequency := f } ∧ DeviceInRange dev')
    ∧ (∀ ls : RadiotransmissionSystem, AllDevicesInRange ls.antennas →
        (∀ p : TransmitReceiveDeviceProperties,
          p.frequencyRangeMin ≤ p.frequencyRangeMax →
          AllDevicesInRange (ls.addDevice p).antennas)
        ∧ (∀ (mb : MemoryBlock) (ia ir : Int) (f : Option ℚ) (ar : Option Int) (b : Bool)
            (ls' : RadiotransmissionSystem),
            ls.assignDeviceAsTransmitter mb ia ir f ar = Except.ok (b, ls') →
            AllDevicesInRange ls'.antennas)
        ∧ (∀ (ia : Int) (f : Option ℚ) (b : Bool) (ls' : RadiotransmissionSystem),
            ls.assignDeviceAsReceiver ia f = Except.ok (b, ls') →
            AllDevicesInRange ls'.antennas)
        ∧ (∀ (iai iao dest : Int) (destAnt : Option Int) (fi fo : Option ℚ) (sv b : Bool)
            (ls' : RadiotransmissionSystem),
            ls.assignDeviceAsRepeater iai iao dest destAnt fi fo sv = Except.ok (b, ls') →
            AllDevicesInRange ls'.antennas)
        ∧ (∀ (d : ℚ) (gc gc1 : RadioTransmissionMediumConsumer)
            (ls1 : RadiotransmissionSystem),
            ls.imitationStep d gc = Except.ok (ls1, gc1) →
            AllDevicesInRange ls1.antennas)
        ∧ (∀ (gc : RadioTransmissionMediumConsumer) (ls' : RadiotransmissionSystem),
            ls.finalizeStep gc = Except.ok ls' →
            AllDevicesInRange ls'.antennas)) := by
  refine ⟨?_, ?_, ?_, ?_⟩
  · intro ct cr mn mx cons cot cor
    constructor
    · intro hgt
      unfold mkTransmitReceiveDeviceProperties
      rw [if_pos hgt]
    · intro p hp
      unfold mkTransmitReceiveDeviceProperties at hp
      split at hp
      · exact Except.noConfusion hp
      · rename_i hle
        injection hp with hp'
        rw [← hp']
        exact not_lt.mp hle
  · intro i p hp
    exact mkDevice_inRange i p hp
  · intro dev f
    refine ⟨setFrequency_error, ?_⟩
    intro dev' h
    obtain ⟨heq, hmin, hmax⟩ := setFrequency_ok h
    refine ⟨heq, ?_⟩
    subst heq
    exact ⟨hmin, hmax⟩
  · intro ls hall
    refine ⟨fun p hp => addDevice_allInRange hp hall,
      fun mb ia ir f ar b ls' h => assignDeviceAsTransmitter_allInRange h hall,
      fun ia f b ls' h => assignDeviceAsReceiver_allInRange h hall,
      fun iai iao dest destAnt fi fo sv b ls' h => assignDeviceAsRepeater_allInRange h hall,
      fun d gc gc1 ls1 h => imitationStep_ok_allInRange h hall,
      fun gc ls' h => ?_⟩
    rw [finalizeStep_ok_antennas h]
    exact hall

/-- Witness for C8: the inverted range is rejected, the fresh sample
device starts in range, retuning it to 300 (outside 50..200) raises, and
the invariant survives adding a device and a receiver assignment on the
sample system. -/
theorem device_frequency_range_invariant_witness :
    mkTransmitReceiveDeviceProperties 1 1 5 1 1 none none
        = Except.error "Must be frequency_range_min <= frequency_range_max."
    ∧ DeviceInRange (mkTransmitReceiveDevice 0 sampleDeviceProperties)
    ∧ (∃ e, (mkTransmitReceiveDevice 0 sampleDeviceProperties).setFrequency 300
        = Except.error e)
    ∧ AllDevicesInRange (sampleLocalSystem.addDevice sampleDeviceProperties).antennas
    ∧ AllDevicesInRange receiverLocalSystem.antennas :=
  ⟨(device_frequency_range_invariant.1 1 1 5 1 1 none none).1 (by decide),
   device_frequency_range_invariant.2.1 0 sampleDeviceProperties (by decide),
   ((device_frequency_range_invariant.2.2.1
      (mkTransmitReceiveDevice 0 sampleDeviceProperties) 300).1).mpr (by decide),
   (device_frequency_range_invariant.2.2.2 sampleLocalSystem (by decide)).1
      sampleDeviceProperties (by decide),
   (device_frequency_range_invariant.2.2.2 sampleLocalSystem (by decide)).2.2.1
      0 (some 100) true receiverLocalSystem (by decide)⟩
